import Mathlib

/-!
Resource handlers of the TFE provider

A shallow embedding of `tfe/resource_tfe_organization_membership.go`,
`tfe/resource_tfe_variable_set.go` (its handlers and its ID pattern) and the organization
sweeper of `tfe/tfe_sweeper_test.go`.

* A Go pointer is an `Option` (`none` is `nil`); dereferencing `nil` makes the
  handler end in `Outcome.panicked`.
* A Go slice is `GoSlice` (`none` is the nil slice).
* The REST client is a state machine over an arbitrary state `σ`; every call a
  handler makes is also appended to a log, so that theorems can speak about
  which calls were made, with which arguments and in which order.
* `*schema.ResourceData` is passed explicitly and returned by every handler.
* `log.Printf` lines have no effect on the handler and are left out.
* A regular expression is a syntax tree with a matcher that returns, for an input, what
  is left after each way of matching at its start; `MatchString` tries every suffix.
-/

namespace Tfe

/-! ## Go values -/

/-- A Go slice; `none` is the nil slice. -/
abbrev GoSlice (α : Type) := Option (List α)

/-- The elements a `range` loop visits. -/
def GoSlice.elems {α : Type} (s : GoSlice α) : List α := s.getD []

/-- Go `append(s, x)`: the result is never nil. -/
def GoSlice.append {α : Type} (s : GoSlice α) (x : α) : GoSlice α := some (s.elems ++ [x])

/-- An error value returned by the go-tfe client. `ErrResourceNotFound` is the
sentinel `tfe.ErrResourceNotFound`; the handlers compare with `==`, so any other
error value, whatever its text, is `other`. -/
inductive TfeError where
  | ErrResourceNotFound
  | other (msg : String)
  deriving DecidableEq, Repr

/-- Go `err.Error()`. -/
def TfeError.Error : TfeError → String
  | .ErrResourceNotFound => "resource not found"
  | .other msg => msg

/-- An error built by `fmt.Errorf`: its text and, for the `%w` verb, the wrapped error. -/
structure FmtError where
  msg : String
  wrapped : Option TfeError
  deriving DecidableEq, Repr

/-- How a call of a handler ends: it returns an `error` (`none` is `nil`), or it
panics on a nil pointer dereference. -/
inductive Outcome (ε : Type) where
  | returned (err : Option ε)
  | panicked
  deriving DecidableEq, Repr

/-- The `(value, error)` pair a client method returns. -/
structure Ret (α : Type) where
  val : Option α
  err : Option TfeError
  deriving DecidableEq, Repr

/-! ## go-tfe types (the fields the handlers use) -/

structure Organization where
  Name : String
  deriving DecidableEq, Repr

structure User where
  ID : String
  deriving DecidableEq, Repr

structure Workspace where
  ID : String
  deriving DecidableEq, Repr

/-- The type `tfe.OrganizationMembership`; the to-one relations are pointers. -/
structure OrganizationMembership where
  ID : String
  Email : String
  Organization : Option Organization
  User : Option User
  deriving DecidableEq, Repr

/-- The type `tfe.VariableSet`; `Organization` is a pointer, `Workspaces` a slice of
allocated workspaces. -/
structure VariableSet where
  ID : String
  Name : String
  Description : String
  Global : Bool
  Organization : Option Organization
  Workspaces : GoSlice Workspace
  deriving DecidableEq, Repr

structure OrganizationList where
  Items : GoSlice Organization
  deriving DecidableEq, Repr

structure OrganizationMembershipCreateOptions where
  Email : Option String
  deriving DecidableEq, Repr

inductive OrgMembershipIncludeOpt where
  | OrgMembershipUser
  | OrgMembershipTeam
  deriving DecidableEq, Repr

structure OrganizationMembershipReadOptions where
  Include : GoSlice OrgMembershipIncludeOpt
  deriving DecidableEq, Repr

structure VariableSetCreateOptions where
  Name : Option String
  Description : Option String
  Global : Option Bool
  deriving DecidableEq, Repr

inductive VariableSetIncludeOpt where
  | VariableSetWorkspaces
  | VariableSetVars
  deriving DecidableEq, Repr

structure VariableSetReadOptions where
  Include : Option (GoSlice VariableSetIncludeOpt)
  deriving DecidableEq, Repr

structure VariableSetUpdateOptions where
  Name : Option String
  Description : Option String
  Global : Option Bool
  deriving DecidableEq, Repr

structure VariableSetUpdateWorkspacesOptions where
  Workspaces : GoSlice Workspace
  deriving DecidableEq, Repr

/-! ## The client -/

/-- One call to the REST client, with its arguments. -/
inductive Call where
  | OrganizationMemberships_Create (organization : String)
      (options : OrganizationMembershipCreateOptions)
  | OrganizationMemberships_ReadWithOptions (id : String)
      (options : OrganizationMembershipReadOptions)
  | OrganizationMemberships_Delete (id : String)
  | VariableSets_Create (organization : String) (options : VariableSetCreateOptions)
  | VariableSets_Read (id : String) (options : VariableSetReadOptions)
  | VariableSets_Update (id : String) (options : VariableSetUpdateOptions)
  | VariableSets_UpdateWorkspaces (id : String) (options : VariableSetUpdateWorkspacesOptions)
  | VariableSets_Delete (id : String)
  | Organizations_List
  | Organizations_Delete (organization : String)
  deriving DecidableEq, Repr

/-- The client `*tfe.Client` as a state machine: each method maps the remote state and
the arguments to a result and the next remote state. Nothing is assumed about it. -/
structure Client (σ : Type) where
  OrganizationMemberships_Create :
    σ → String → OrganizationMembershipCreateOptions → Ret OrganizationMembership × σ
  OrganizationMemberships_ReadWithOptions :
    σ → String → OrganizationMembershipReadOptions → Ret OrganizationMembership × σ
  OrganizationMemberships_Delete : σ → String → Option TfeError × σ
  VariableSets_Create : σ → String → VariableSetCreateOptions → Ret VariableSet × σ
  VariableSets_Read : σ → String → VariableSetReadOptions → Ret VariableSet × σ
  VariableSets_Update : σ → String → VariableSetUpdateOptions → Ret VariableSet × σ
  VariableSets_UpdateWorkspaces :
    σ → String → VariableSetUpdateWorkspacesOptions → Ret VariableSet × σ
  VariableSets_Delete : σ → String → Option TfeError × σ
  Organizations_List : σ → Ret OrganizationList × σ
  Organizations_Delete : σ → String → Option TfeError × σ

/-- The remote state together with the log of the calls made so far. -/
structure World (σ : Type) where
  cs : σ
  calls : List Call

/-- Make one client call: log it and step the remote state. -/
def World.invoke {σ ρ : Type} (w : World σ) (call : Call) (f : σ → ρ × σ) : ρ × World σ :=
  ((f w.cs).1, { cs := (f w.cs).2, calls := w.calls ++ [call] })

/-! ## schema.ResourceData -/

/-- A `*schema.Set` of strings: its elements, without duplicates, in the order `List()`
yields them. The hash order of the SDK is not modelled. -/
structure SchemaSet where
  elems : List String
  nodup : elems.Nodup

instance : DecidableEq SchemaSet := fun a b =>
  decidable_of_iff (a.elems = b.elems) (by cases a; cases b; simp)

/-- The method `(*schema.Set).List`. -/
def SchemaSet.list (s : SchemaSet) : List String := s.elems

/-- The method `(*schema.Set).Len`. -/
def SchemaSet.Len (s : SchemaSet) : Nat := s.elems.length

/-- The empty set, the zero value of a `TypeSet` attribute. -/
def SchemaSet.empty : SchemaSet := ⟨[], List.nodup_nil⟩

/-- The set `d.Set` builds from a slice: every element is added once. -/
def SchemaSet.ofList (l : List String) : SchemaSet := ⟨l.dedup, l.nodup_dedup⟩

/-- The method `(*schema.Set).Equal`: same elements. -/
def SchemaSet.Equal (a b : SchemaSet) : Bool :=
  a.elems.all (fun x => decide (x ∈ b.elems)) && b.elems.all (fun x => decide (x ∈ a.elems))

/-- The resource data a handler receives, for a resource with attributes `α`:
`state` is the prior state and `planned` the state merged with the diff (the two sides
of `GetChange`); `values` is `planned` merged with what the handler wrote with `Set`
and is what `Get` reads. -/
structure ResourceData (α : Type) where
  id : String
  state : α
  planned : α
  values : α
  deriving DecidableEq

/-- The method `d.Id()`. -/
def ResourceData.Id {α : Type} (d : ResourceData α) : String := d.id

/-- The method `d.SetId(v)`. -/
def ResourceData.SetId {α : Type} (d : ResourceData α) (v : String) : ResourceData α :=
  { d with id := v }

/-- Attributes of `tfe_organization_membership`; `none` is an attribute with no value. -/
structure MembershipAttrs where
  email : Option String
  organization : Option String
  user_id : Option String
  deriving DecidableEq

/-- Attributes of `tfe_variable_set`; `none` is an attribute with no (known) value. -/
structure VariableSetAttrs where
  name : Option String
  description : Option String
  global : Option Bool
  organization : Option String
  workspace_ids : Option SchemaSet
  deriving DecidableEq

/-- The read `d.Get(key).(string)`: the value, or the zero value of the type. -/
def getString (v : Option String) : String := v.getD ""

/-- The read `d.Get(key).(bool)`: the value, or the schema default `false`. -/
def getBool (v : Option Bool) : Bool := v.getD false

/-- The read `d.Get(key).(*schema.Set)`: the value, or the empty set. -/
def getSet (v : Option SchemaSet) : SchemaSet := v.getD SchemaSet.empty

/-- The read `d.GetOk(key)` for a string: set and different from the zero value. -/
def getOkString (v : Option String) : String × Bool :=
  (getString v, decide (getString v ≠ ""))

/-- The read `d.GetOk(key)` for a set: set and not empty. -/
def getOkSet (v : Option SchemaSet) : SchemaSet × Bool :=
  (getSet v, decide ((getSet v).Len ≠ 0))

/-! ## tfe/resource_tfe_organization_membership.go -/

section Handlers

variable {σ : Type}

/-- The result of a handler: how it ended, the resource data and the world after it. -/
abbrev HandlerResult (σ α : Type) := Outcome FmtError × ResourceData α × World σ

def resourceTFEOrganizationMembershipRead (c : Client σ) (d : ResourceData MembershipAttrs)
    (w : World σ) : HandlerResult σ MembershipAttrs :=
  let options : OrganizationMembershipReadOptions :=
    { Include := some [OrgMembershipIncludeOpt.OrgMembershipUser] }
  let r := w.invoke (Call.OrganizationMemberships_ReadWithOptions d.Id options)
    (fun s => c.OrganizationMemberships_ReadWithOptions s d.Id options)
  let w := r.2
  match r.1.err with
  | some err =>
    if err = TfeError.ErrResourceNotFound then
      (.returned none, d.SetId "", w)
    else
      (.returned (some ⟨"Error reading configuration of membership " ++ d.Id ++ ": "
        ++ err.Error, some err⟩), d, w)
  | none =>
    match r.1.val with
    | none => (.panicked, d, w)
    | some membership =>
      let d := { d with values := { d.values with email := some membership.Email } }
      match membership.Organization with
      | none => (.panicked, d, w)
      | some org =>
        let d := { d with values := { d.values with organization := some org.Name } }
        match membership.User with
        | none => (.panicked, d, w)
        | some user =>
          let d := { d with values := { d.values with user_id := some user.ID } }
          (.returned none, d, w)

def resourceTFEOrganizationMembershipCreate (c : Client σ) (d : ResourceData MembershipAttrs)
    (w : World σ) : HandlerResult σ MembershipAttrs :=
  let email := getString d.values.email
  let organization := getString d.values.organization
  let options : OrganizationMembershipCreateOptions := { Email := some email }
  let r := w.invoke (Call.OrganizationMemberships_Create organization options)
    (fun s => c.OrganizationMemberships_Create s organization options)
  let w := r.2
  match r.1.err with
  | some err =>
    (.returned (some ⟨"Error creating membership " ++ email ++ " for organization "
      ++ organization ++ ": " ++ err.Error, some err⟩), d, w)
  | none =>
    match r.1.val with
    | none => (.panicked, d, w)
    | some membership =>
      let d := d.SetId membership.ID
      resourceTFEOrganizationMembershipRead c d w

def resourceTFEOrganizationMembershipDelete (c : Client σ) (d : ResourceData MembershipAttrs)
    (w : World σ) : HandlerResult σ MembershipAttrs :=
  let r := w.invoke (Call.OrganizationMemberships_Delete d.Id)
    (fun s => c.OrganizationMemberships_Delete s d.Id)
  let w := r.2
  match r.1 with
  | some err =>
    if err = TfeError.ErrResourceNotFound then
      (.returned none, d, w)
    else
      (.returned (some ⟨"Error deleting membership " ++ d.Id ++ ": " ++ err.Error, some err⟩),
        d, w)
  | none => (.returned none, d, w)

/-! ## tfe/resource_tfe_variable_set.go -/

/-- The test `d.HasChange(key)` for a string: the two sides of `GetChange` differ. -/
def hasChangeString (o n : Option String) : Bool := decide (getString o ≠ getString n)

/-- The test `d.HasChange(key)` for a bool. -/
def hasChangeBool (o n : Option Bool) : Bool := decide (getBool o ≠ getBool n)

/-- The test `d.HasChange(key)` for a set, which compares with `(*schema.Set).Equal`. -/
def hasChangeSet (o n : Option SchemaSet) : Bool := !(getSet o).Equal (getSet n)

def resourceTFEVariableSetRead (c : Client σ) (d : ResourceData VariableSetAttrs)
    (w : World σ) : HandlerResult σ VariableSetAttrs :=
  let options : VariableSetReadOptions :=
    { Include := some (some [VariableSetIncludeOpt.VariableSetWorkspaces]) }
  let r := w.invoke (Call.VariableSets_Read d.Id options)
    (fun s => c.VariableSets_Read s d.Id options)
  let w := r.2
  match r.1.err with
  | some err =>
    if err = TfeError.ErrResourceNotFound then
      (.returned none, d.SetId "", w)
    else
      (.returned (some ⟨"Error reading configuration of variable set " ++ d.Id ++ ": "
        ++ err.Error, none⟩), d, w)
  | none =>
    match r.1.val with
    | none => (.panicked, d, w)
    | some variableSet =>
      let d := { d with values := { d.values with name := some variableSet.Name } }
      let d := { d with values := { d.values with description := some variableSet.Description } }
      let d := { d with values := { d.values with global := some variableSet.Global } }
      match variableSet.Organization with
      | none => (.panicked, d, w)
      | some org =>
        let d := { d with values := { d.values with organization := some org.Name } }
        let wids : GoSlice String :=
          variableSet.Workspaces.elems.foldl (fun wids workspace => wids.append workspace.ID) none
        let d := { d with values :=
          { d.values with workspace_ids := some (SchemaSet.ofList wids.elems) } }
        (.returned none, d, w)

def resourceTFEVariableSetCreate (c : Client σ) (d : ResourceData VariableSetAttrs)
    (w : World σ) : HandlerResult σ VariableSetAttrs :=
  let name := getString d.values.name
  let organization := getString d.values.organization
  let options : VariableSetCreateOptions :=
    { Name := some name, Global := some (getBool d.values.global), Description := none }
  let description := getOkString d.values.description
  let options := if description.2 then { options with Description := some description.1 }
    else options
  let r := w.invoke (Call.VariableSets_Create organization options)
    (fun s => c.VariableSets_Create s organization options)
  let w := r.2
  match r.1.err with
  | some err =>
    (.returned (some ⟨"Error creating variable set " ++ name ++ ", for organization: "
      ++ organization ++ ": " ++ err.Error, none⟩), d, w)
  | none =>
    let variableSet := r.1.val
    let workspaceIDs := getOkSet d.values.workspace_ids
    match options.Global with
    | none => (.panicked, d, w)
    | some global =>
      if !global && workspaceIDs.2 then
        let applyOptions : VariableSetUpdateWorkspacesOptions :=
          workspaceIDs.1.list.foldl
            (fun o workspaceID => { o with Workspaces := o.Workspaces.append ⟨workspaceID⟩ })
            { Workspaces := none }
        match variableSet with
        | none => (.panicked, d, w)
        | some created =>
          let r := w.invoke (Call.VariableSets_UpdateWorkspaces created.ID applyOptions)
            (fun s => c.VariableSets_UpdateWorkspaces s created.ID applyOptions)
          let w := r.2
          let variableSet := r.1.val
          match r.1.err with
          | some err =>
            match variableSet with
            | none => (.panicked, d, w)
            | some variableSet =>
              (.returned (some ⟨"Error applying variable set " ++ name ++ " (" ++ variableSet.ID
                ++ ") to given workspaces: " ++ err.Error, none⟩), d, w)
          | none =>
            match variableSet with
            | none => (.panicked, d, w)
            | some variableSet =>
              resourceTFEVariableSetRead c (d.SetId variableSet.ID) w
      else
        match variableSet with
        | none => (.panicked, d, w)
        | some variableSet =>
          resourceTFEVariableSetRead c (d.SetId variableSet.ID) w

def resourceTFEVariableSetUpdate (c : Client σ) (d : ResourceData VariableSetAttrs)
    (w : World σ) : HandlerResult σ VariableSetAttrs :=
  let r1 : Option TfeError × World σ :=
    if hasChangeString d.state.name d.planned.name
        || hasChangeString d.state.description d.planned.description
        || hasChangeBool d.state.global d.planned.global then
      let options : VariableSetUpdateOptions :=
        { Name := some (getString d.values.name),
          Description := some (getString d.values.description),
          Global := some (getBool d.values.global) }
      let r := w.invoke (Call.VariableSets_Update d.Id options)
        (fun s => c.VariableSets_Update s d.Id options)
      (r.1.err, r.2)
    else (none, w)
  match r1.1 with
  | some err =>
    (.returned (some ⟨"Error updateing variable " ++ d.Id ++ ": " ++ err.Error, none⟩), d, r1.2)
  | none =>
    let w := r1.2
    let r2 : Option TfeError × World σ :=
      if hasChangeSet d.state.workspace_ids d.planned.workspace_ids then
        let workspaceIDs := getSet d.values.workspace_ids
        let applyOptions : VariableSetUpdateWorkspacesOptions :=
          workspaceIDs.list.foldl
            (fun o workspaceID => { o with Workspaces := o.Workspaces.append ⟨workspaceID⟩ })
            { Workspaces := some [] }
        let r := w.invoke (Call.VariableSets_UpdateWorkspaces d.Id applyOptions)
          (fun s => c.VariableSets_UpdateWorkspaces s d.Id applyOptions)
        (r.1.err, r.2)
      else (none, w)
    match r2.1 with
    | some err =>
      (.returned (some ⟨"Error applying variable set " ++ d.Id ++ " to given workspaces: "
        ++ err.Error, none⟩), d, r2.2)
    | none => resourceTFEVariableSetRead c d r2.2

def resourceTFEVariableSetDelete (c : Client σ) (d : ResourceData VariableSetAttrs)
    (w : World σ) : HandlerResult σ VariableSetAttrs :=
  let r := w.invoke (Call.VariableSets_Delete d.Id) (fun s => c.VariableSets_Delete s d.Id)
  let w := r.2
  match r.1 with
  | some err =>
    if err = TfeError.ErrResourceNotFound then
      (.returned none, d, w)
    else
      (.returned (some ⟨"Error deleting variable set " ++ d.Id ++ ": " ++ err.Error, none⟩),
        d, w)
  | none => (.returned none, d, w)

/-! ## tfe/tfe_sweeper_test.go -/

/-- The errors the sweeper builds with `fmt.Errorf`, one constructor per message:
"Error getting client: %s", "Error listing organizations: %s" and
"Error deleting organization %q %s". -/
inductive SweepError where
  | gettingClient (err : String)
  | listingOrganizations (err : TfeError)
  | deletingOrganization (name : String) (err : TfeError)
  deriving DecidableEq, Repr

/-- Go `strings.HasPrefix(s, p)`. -/
def stringsHasPrefix (s p : String) : Bool := p.toList.isPrefixOf s.toList

/-- The `for _, org := range orgList.Items` loop of the sweeper. -/
def sweepItems (c : Client σ) : List Organization → World σ → Outcome SweepError × World σ
  | [], w => (.returned none, w)
  | org :: rest, w =>
    if stringsHasPrefix org.Name "tst-terraform" then
      let r := w.invoke (Call.Organizations_Delete org.Name)
        (fun s => c.Organizations_Delete s org.Name)
      match r.1 with
      | some err => (.returned (some (.deletingOrganization org.Name err)), r.2)
      | none => sweepItems c rest r.2
    else sweepItems c rest w

/-- The type `resource.Sweeper`: its name and its function. -/
structure Sweeper (σ : Type) where
  Name : String
  F : String → World σ → Outcome SweepError × World σ

/-- The sweeper; `getClientUsingEnv`, which is defined elsewhere in the package, is
taken as its result: a client or an error text. -/
def getOrgSweeper (getClientUsingEnv : Except String (Client σ)) (name : String) : Sweeper σ :=
  { Name := name
    F := fun _ununsed w =>
      match getClientUsingEnv with
      | .error err => (.returned (some (.gettingClient err)), w)
      | .ok client =>
        let r := w.invoke Call.Organizations_List (fun s => client.Organizations_List s)
        match r.1.err with
        | some err => (.returned (some (.listingOrganizations err)), r.2)
        | none =>
          match r.1.val with
          | none => (.panicked, r.2)
          | some orgList => sweepItems client orgList.Items.elems r.2 }

end Handlers

/-! ## The pattern `variableSetIdRegexp` of tfe/resource_tfe_variable_set.go -/

/-- The part of the syntax of Go regular expressions that `variableSetIdRegexp` uses:
literal text, a character class given by its ranges, `r{n}`, concatenation, and `$`
(without the `m` flag: the end of the text). -/
inductive Regexp where
  | literal (text : String)
  | charClass (ranges : List (Char × Char))
  | repeatN (r : Regexp) (n : Nat)
  | concat (r₁ r₂ : Regexp)
  | endText
  deriving Repr

/-- A character is in a class when one of the ranges of the class holds it. -/
def inClass (ranges : List (Char × Char)) (c : Char) : Bool :=
  ranges.any (fun r => decide (r.1 ≤ c) && decide (c ≤ r.2))

/-- Match `f` exactly `n` times in a row: what is left of the input after each way of
doing so. -/
def consumeN (f : List Char → List (List Char)) : Nat → List Char → List (List Char)
  | 0, input => [input]
  | n + 1, input => (f input).flatMap (consumeN f n)

/-- Match a regular expression at the start of the input: what is left of the input after
each way of matching (no way: the empty list). -/
def Regexp.consume : Regexp → List Char → List (List Char)
  | .literal text => fun input =>
    if text.toList.isPrefixOf input then [input.drop text.toList.length] else []
  | .charClass ranges => fun input =>
    match input with
    | [] => []
    | c :: rest => if inClass ranges c then [rest] else []
  | .repeatN r n => fun input => consumeN (Regexp.consume r) n input
  | .concat r₁ r₂ => fun input => (Regexp.consume r₁ input).flatMap (Regexp.consume r₂)
  | .endText => fun input => if input.isEmpty then [input] else []

/-- The method `(*regexp.Regexp).MatchString`: the regular expression matches somewhere in
`s`, that is, at the start of one of the suffixes of `s`. -/
def Regexp.MatchString (re : Regexp) (s : String) : Bool :=
  s.toList.tails.any (fun suffix => !(re.consume suffix).isEmpty)

/-- The pattern `regexp.MustCompile("varset-[a-zA-Z0-9]{16}$")`. -/
def variableSetIdRegexp : Regexp :=
  .concat (.literal "varset-")
    (.concat (.repeatN (.charClass [('a', 'z'), ('A', 'Z'), ('0', '9')]) 16) .endText)

/-- An ASCII letter or digit, in the words of the specification. -/
def asciiLetterOrDigit (c : Char) : Prop :=
  ('a' ≤ c ∧ c ≤ 'z') ∨ ('A' ≤ c ∧ c ≤ 'Z') ∨ ('0' ≤ c ∧ c ≤ '9')

instance : DecidablePred asciiLetterOrDigit := fun c => by
  unfold asciiLetterOrDigit
  infer_instance

/-! ## Concrete clients and resource data, used to instantiate the theorems -/

/-- A client over a remote state with nothing in it: its methods return the given
results whatever their arguments, except `Organizations.Delete`, whose result depends
on the organization. -/
def fixedClient (om : Ret OrganizationMembership) (vs : Ret VariableSet)
    (del : Option TfeError) (orgs : Ret OrganizationList)
    (orgDel : String → Option TfeError) : Client Unit :=
  { OrganizationMemberships_Create := fun s _ _ => (om, s)
    OrganizationMemberships_ReadWithOptions := fun s _ _ => (om, s)
    OrganizationMemberships_Delete := fun s _ => (del, s)
    VariableSets_Create := fun s _ _ => (vs, s)
    VariableSets_Read := fun s _ _ => (vs, s)
    VariableSets_Update := fun s _ _ => (vs, s)
    VariableSets_UpdateWorkspaces := fun s _ _ => (vs, s)
    VariableSets_Delete := fun s _ => (del, s)
    Organizations_List := fun s => (orgs, s)
    Organizations_Delete := fun s n => (orgDel n, s) }

/-- A client whose every call fails with `err`. -/
def failingClient (err : TfeError) : Client Unit :=
  fixedClient ⟨none, some err⟩ ⟨none, some err⟩ (some err) ⟨none, some err⟩ (fun _ => some err)

/-- A world in which no call has been made yet. -/
def world0 : World Unit := { cs := (), calls := [] }

def membershipAttrs0 : MembershipAttrs :=
  { email := some "user@example.com", organization := some "acme", user_id := some "user-1" }

/-- Resource data of an existing membership. -/
def membershipData0 : ResourceData MembershipAttrs :=
  { id := "ou-1", state := membershipAttrs0, planned := membershipAttrs0,
    values := membershipAttrs0 }

def variableSetAttrs0 : VariableSetAttrs :=
  { name := some "vars", description := some "shared", global := some false,
    organization := some "acme", workspace_ids := some (SchemaSet.ofList ["ws-1", "ws-2"]) }

/-- Resource data of an existing variable set. -/
def variableSetData0 : ResourceData VariableSetAttrs :=
  { id := "varset-1", state := variableSetAttrs0, planned := variableSetAttrs0,
    values := variableSetAttrs0 }

/-- A membership as the service returns it, with its organization and its user. -/
def membership0 : OrganizationMembership :=
  { ID := "ou-1", Email := "new@example.com", Organization := some ⟨"acme-inc"⟩,
    User := some ⟨"user-7"⟩ }

/-- A variable set as the service returns it, applied to two workspaces. -/
def variableSet0 : VariableSet :=
  { ID := "varset-9", Name := "vars-renamed", Description := "", Global := false,
    Organization := some ⟨"acme-inc"⟩, Workspaces := some [⟨"ws-2"⟩, ⟨"ws-3"⟩] }

/-- A client whose membership and variable set calls succeed with `membership0` and
`variableSet0`. -/
def okClient : Client Unit :=
  fixedClient ⟨some membership0, none⟩ ⟨some variableSet0, none⟩ none
    ⟨some ⟨some []⟩, none⟩ (fun _ => none)

/-- Resource data of a variable set whose name and workspaces are both being changed. -/
def variableSetData1 : ResourceData VariableSetAttrs :=
  { id := "varset-1"
    state := { variableSetAttrs0 with workspace_ids := some (SchemaSet.ofList ["ws-1"]) }
    planned := { variableSetAttrs0 with name := some "vars-renamed" }
    values := { variableSetAttrs0 with name := some "vars-renamed" } }

/-- A client whose listing holds three organizations and whose deletions succeed. -/
def sweepClient : Client Unit :=
  fixedClient ⟨none, none⟩ ⟨none, none⟩ none
    ⟨some ⟨some [⟨"terraform-updated"⟩, ⟨"tst-terraform-42"⟩, ⟨"production"⟩]⟩, none⟩
    (fun _ => none)

/-- A client over a remote state with nothing in it whose four variable set methods
return the given results; every other call fails. -/
def variableSetClient (create read update updateWorkspaces : Ret VariableSet) : Client Unit :=
  { failingClient (TfeError.other "unexpected call") with
    VariableSets_Create := fun s _ _ => (create, s)
    VariableSets_Read := fun s _ _ => (read, s)
    VariableSets_Update := fun s _ _ => (update, s)
    VariableSets_UpdateWorkspaces := fun s _ _ => (updateWorkspaces, s) }

/-- A client on which creating, reading and updating a variable set succeed with
`variableSet0` and applying it to workspaces fails, with no variable set in the result. -/
def applyFailsClient : Client Unit :=
  variableSetClient ⟨some variableSet0, none⟩ ⟨some variableSet0, none⟩
    ⟨some variableSet0, none⟩ ⟨none, some (TfeError.other "workspace not found")⟩

/-- Resource data of the variable set `variableSetAttrs0` before it is created: no ID and
no prior state. -/
def variableSetNew : ResourceData VariableSetAttrs :=
  { id := ""
    state := { name := none, description := none, global := none, organization := none,
               workspace_ids := none }
    planned := variableSetAttrs0
    values := variableSetAttrs0 }

/-- Resource data of a variable set of which only the workspaces are being changed. -/
def variableSetData2 : ResourceData VariableSetAttrs :=
  { id := "varset-1"
    state := { variableSetAttrs0 with workspace_ids := some (SchemaSet.ofList ["ws-1"]) }
    planned := variableSetAttrs0
    values := variableSetAttrs0 }

/-! ## Theorems -/

section Theorems

variable {σ : Type}

/-- The membership read handler makes exactly one call: `ReadWithOptions` for the resource
ID, asking for the user to be included. -/
theorem membershipRead_calls (c : Client σ) (d : ResourceData MembershipAttrs) (w : World σ) :
    (resourceTFEOrganizationMembershipRead c d w).2.2.calls
      = w.calls ++ [Call.OrganizationMemberships_ReadWithOptions d.Id
          { Include := some [OrgMembershipIncludeOpt.OrgMembershipUser] }] := by
  unfold resourceTFEOrganizationMembershipRead
  simp only [World.invoke]
  split
  · split <;> rfl
  · split
    · rfl
    · split
      · rfl
      · split <;> rfl

/-- The variable set read handler makes exactly one call: `Read` for the resource ID,
asking for the workspaces to be included. -/
theorem variableSetRead_calls (c : Client σ) (d : ResourceData VariableSetAttrs)
    (w : World σ) :
    (resourceTFEVariableSetRead c d w).2.2.calls
      = w.calls ++ [Call.VariableSets_Read d.Id
          { Include := some (some [VariableSetIncludeOpt.VariableSetWorkspaces]) }] := by
  unfold resourceTFEVariableSetRead
  simp only [World.invoke]
  split
  · split <;> rfl
  · split
    · rfl
    · split <;> rfl

/-- C1: when `ReadWithOptions` returns an error, `resourceTFEOrganizationMembershipRead`
returns nil with the resource ID set to the empty string if the error is the sentinel
`ErrResourceNotFound`, and otherwise returns a non-nil error and leaves the resource ID
and all attributes as they were. -/
theorem membershipRead_error (c : Client σ) (d : ResourceData MembershipAttrs) (w : World σ)
    (e : TfeError)
    (h : (c.OrganizationMemberships_ReadWithOptions w.cs d.Id
      { Include := some [OrgMembershipIncludeOpt.OrgMembershipUser] }).1.err = some e) :
    (e = TfeError.ErrResourceNotFound →
      (resourceTFEOrganizationMembershipRead c d w).1 = Outcome.returned none ∧
      (resourceTFEOrganizationMembershipRead c d w).2.1 = d.SetId "" ∧
      (resourceTFEOrganizationMembershipRead c d w).2.1.Id = "") ∧
    (e ≠ TfeError.ErrResourceNotFound →
      (∃ x, (resourceTFEOrganizationMembershipRead c d w).1 = Outcome.returned (some x)) ∧
      (resourceTFEOrganizationMembershipRead c d w).2.1 = d) := by
  simp only [ResourceData.Id] at h
  constructor
  · intro he
    subst he
    simp [resourceTFEOrganizationMembershipRead, World.invoke, h, ResourceData.SetId,
      ResourceData.Id]
  · intro he
    simp [resourceTFEOrganizationMembershipRead, World.invoke, h, he, ResourceData.Id]

/-- Witness of C1 on a client that answers "not found" and on one that fails otherwise. -/
theorem membershipRead_error_witness :
    ((resourceTFEOrganizationMembershipRead (failingClient TfeError.ErrResourceNotFound)
        membershipData0 world0).1 = Outcome.returned none ∧
      (resourceTFEOrganizationMembershipRead (failingClient TfeError.ErrResourceNotFound)
        membershipData0 world0).2.1 = membershipData0.SetId "" ∧
      (resourceTFEOrganizationMembershipRead (failingClient TfeError.ErrResourceNotFound)
        membershipData0 world0).2.1.Id = "") ∧
    ((∃ x, (resourceTFEOrganizationMembershipRead (failingClient (TfeError.other "timeout"))
        membershipData0 world0).1 = Outcome.returned (some x)) ∧
      (resourceTFEOrganizationMembershipRead (failingClient (TfeError.other "timeout"))
        membershipData0 world0).2.1 = membershipData0) :=
  ⟨(membershipRead_error (failingClient TfeError.ErrResourceNotFound) membershipData0 world0
      TfeError.ErrResourceNotFound rfl).1 rfl,
   (membershipRead_error (failingClient (TfeError.other "timeout")) membershipData0 world0
      (TfeError.other "timeout") rfl).2 (by decide)⟩

/-- C2: when `VariableSets.Read` returns an error, `resourceTFEVariableSetRead` returns nil
with the resource ID set to the empty string if the error is the sentinel
`ErrResourceNotFound`, and otherwise returns a non-nil error and leaves the resource ID
and the attributes (name, description, global, organization, workspace_ids) as they were. -/
theorem variableSetRead_error (c : Client σ) (d : ResourceData VariableSetAttrs) (w : World σ)
    (e : TfeError)
    (h : (c.VariableSets_Read w.cs d.Id
      { Include := some (some [VariableSetIncludeOpt.VariableSetWorkspaces]) }).1.err = some e) :
    (e = TfeError.ErrResourceNotFound →
      (resourceTFEVariableSetRead c d w).1 = Outcome.returned none ∧
      (resourceTFEVariableSetRead c d w).2.1 = d.SetId "" ∧
      (resourceTFEVariableSetRead c d w).2.1.Id = "") ∧
    (e ≠ TfeError.ErrResourceNotFound →
      (∃ x, (resourceTFEVariableSetRead c d w).1 = Outcome.returned (some x)) ∧
      (resourceTFEVariableSetRead c d w).2.1 = d) := by
  simp only [ResourceData.Id] at h
  constructor
  · intro he
    subst he
    simp [resourceTFEVariableSetRead, World.invoke, h, ResourceData.SetId, ResourceData.Id]
  · intro he
    simp [resourceTFEVariableSetRead, World.invoke, h, he, ResourceData.Id]

/-- Witness of C2 on a client that answers "not found" and on one that fails otherwise. -/
theorem variableSetRead_error_witness :
    ((resourceTFEVariableSetRead (failingClient TfeError.ErrResourceNotFound)
        variableSetData0 world0).1 = Outcome.returned none ∧
      (resourceTFEVariableSetRead (failingClient TfeError.ErrResourceNotFound)
        variableSetData0 world0).2.1 = variableSetData0.SetId "" ∧
      (resourceTFEVariableSetRead (failingClient TfeError.ErrResourceNotFound)
        variableSetData0 world0).2.1.Id = "") ∧
    ((∃ x, (resourceTFEVariableSetRead (failingClient (TfeError.other "timeout"))
        variableSetData0 world0).1 = Outcome.returned (some x)) ∧
      (resourceTFEVariableSetRead (failingClient (TfeError.other "timeout"))
        variableSetData0 world0).2.1 = variableSetData0) :=
  ⟨(variableSetRead_error (failingClient TfeError.ErrResourceNotFound) variableSetData0 world0
      TfeError.ErrResourceNotFound rfl).1 rfl,
   (variableSetRead_error (failingClient (TfeError.other "timeout")) variableSetData0 world0
      (TfeError.other "timeout") rfl).2 (by decide)⟩

/-- C3: each delete handler makes one `Delete` call for the resource ID; it returns nil
exactly when that call returned nil or the sentinel `ErrResourceNotFound`, and it returns
a non-nil error exactly when the call returned any other error. -/
theorem delete_nil_iff (c : Client σ) (dm : ResourceData MembershipAttrs)
    (dv : ResourceData VariableSetAttrs) (w : World σ) :
    ((resourceTFEOrganizationMembershipDelete c dm w).2.2.calls
        = w.calls ++ [Call.OrganizationMemberships_Delete dm.Id] ∧
      ((resourceTFEOrganizationMembershipDelete c dm w).1 = Outcome.returned none ↔
        (c.OrganizationMemberships_Delete w.cs dm.Id).1 = none ∨
        (c.OrganizationMemberships_Delete w.cs dm.Id).1 = some TfeError.ErrResourceNotFound) ∧
      ((∃ x, (resourceTFEOrganizationMembershipDelete c dm w).1 = Outcome.returned (some x)) ↔
        ¬ ((c.OrganizationMemberships_Delete w.cs dm.Id).1 = none ∨
          (c.OrganizationMemberships_Delete w.cs dm.Id).1
            = some TfeError.ErrResourceNotFound))) ∧
    ((resourceTFEVariableSetDelete c dv w).2.2.calls
        = w.calls ++ [Call.VariableSets_Delete dv.Id] ∧
      ((resourceTFEVariableSetDelete c dv w).1 = Outcome.returned none ↔
        (c.VariableSets_Delete w.cs dv.Id).1 = none ∨
        (c.VariableSets_Delete w.cs dv.Id).1 = some TfeError.ErrResourceNotFound) ∧
      ((∃ x, (resourceTFEVariableSetDelete c dv w).1 = Outcome.returned (some x)) ↔
        ¬ ((c.VariableSets_Delete w.cs dv.Id).1 = none ∨
          (c.VariableSets_Delete w.cs dv.Id).1 = some TfeError.ErrResourceNotFound))) := by
  refine ⟨⟨?_, ?_, ?_⟩, ?_, ?_, ?_⟩
  · unfold resourceTFEOrganizationMembershipDelete
    simp only [World.invoke]
    split
    · split <;> rfl
    · rfl
  · unfold resourceTFEOrganizationMembershipDelete
    simp only [World.invoke]
    rcases hres : (c.OrganizationMemberships_Delete w.cs dm.Id).1 with _ | e
    · simp
    · by_cases he : e = TfeError.ErrResourceNotFound <;> simp [he]
  · unfold resourceTFEOrganizationMembershipDelete
    simp only [World.invoke]
    rcases hres : (c.OrganizationMemberships_Delete w.cs dm.Id).1 with _ | e
    · simp
    · by_cases he : e = TfeError.ErrResourceNotFound <;> simp [he]
  · unfold resourceTFEVariableSetDelete
    simp only [World.invoke]
    split
    · split <;> rfl
    · rfl
  · unfold resourceTFEVariableSetDelete
    simp only [World.invoke]
    rcases hres : (c.VariableSets_Delete w.cs dv.Id).1 with _ | e
    · simp
    · by_cases he : e = TfeError.ErrResourceNotFound <;> simp [he]
  · unfold resourceTFEVariableSetDelete
    simp only [World.invoke]
    rcases hres : (c.VariableSets_Delete w.cs dv.Id).1 with _ | e
    · simp
    · by_cases he : e = TfeError.ErrResourceNotFound <;> simp [he]

/-- The `wids` loop of `resourceTFEVariableSetRead` collects the workspace IDs in order. -/
theorem wids_foldl (l : List Workspace) (acc : GoSlice String) :
    (l.foldl (fun wids workspace => GoSlice.append wids workspace.ID) acc).elems
      = acc.elems ++ l.map Workspace.ID := by
  induction l generalizing acc with
  | nil => simp
  | cons a l ih =>
    simp only [List.foldl_cons, List.map_cons]
    rw [ih]
    simp [GoSlice.append, GoSlice.elems]

/-- C4: when `VariableSets.Read` succeeds with a variable set (that carries its
organization), `resourceTFEVariableSetRead` returns nil, keeps the resource ID and writes
exactly name, description and global of the variable set, the name of its organization,
and a `workspace_ids` set whose elements are the IDs of its workspaces; with no workspaces
that set is empty. -/
theorem variableSetRead_success (c : Client σ) (d : ResourceData VariableSetAttrs)
    (w : World σ) (vs : VariableSet) (org : Organization)
    (h : (c.VariableSets_Read w.cs d.Id
      { Include := some (some [VariableSetIncludeOpt.VariableSetWorkspaces]) }).1
        = { val := some vs, err := none })
    (hOrg : vs.Organization = some org) :
    ∃ s : SchemaSet,
      (resourceTFEVariableSetRead c d w).1 = Outcome.returned none ∧
      (resourceTFEVariableSetRead c d w).2.1.Id = d.Id ∧
      (resourceTFEVariableSetRead c d w).2.1 =
        { d with values :=
          { name := some vs.Name, description := some vs.Description,
            global := some vs.Global, organization := some org.Name,
            workspace_ids := some s } } ∧
      (∀ x, x ∈ s.list ↔ ∃ ws ∈ vs.Workspaces.elems, ws.ID = x) ∧
      (vs.Workspaces.elems = [] → s.list = []) := by
  simp only [ResourceData.Id] at h
  refine ⟨SchemaSet.ofList (vs.Workspaces.elems.map Workspace.ID), ?_, ?_, ?_, ?_, ?_⟩
  · simp [resourceTFEVariableSetRead, World.invoke, h, hOrg, ResourceData.Id]
  · simp [resourceTFEVariableSetRead, World.invoke, h, hOrg, ResourceData.Id]
  · simp only [resourceTFEVariableSetRead, World.invoke, h, hOrg, ResourceData.Id, wids_foldl]
    simp [GoSlice.elems]
  · intro x
    simp [SchemaSet.list, SchemaSet.ofList]
  · intro hnil
    simp [SchemaSet.list, SchemaSet.ofList, hnil]

/-- Witness of C4: reading `variableSet0` into `variableSetData0`. -/
theorem variableSetRead_success_witness :
    (okClient.VariableSets_Read world0.cs variableSetData0.Id
      { Include := some (some [VariableSetIncludeOpt.VariableSetWorkspaces]) }).1
        = { val := some variableSet0, err := none } ∧
    variableSet0.Organization = some ⟨"acme-inc"⟩ ∧
    ∃ s : SchemaSet,
      (resourceTFEVariableSetRead okClient variableSetData0 world0).1 = Outcome.returned none ∧
      (resourceTFEVariableSetRead okClient variableSetData0 world0).2.1.Id
        = variableSetData0.Id ∧
      (resourceTFEVariableSetRead okClient variableSetData0 world0).2.1 =
        { variableSetData0 with values :=
          { name := some variableSet0.Name, description := some variableSet0.Description,
            global := some variableSet0.Global, organization := some "acme-inc",
            workspace_ids := some s } } ∧
      (∀ x, x ∈ s.list ↔ ∃ ws ∈ variableSet0.Workspaces.elems, ws.ID = x) ∧
      (variableSet0.Workspaces.elems = [] → s.list = []) :=
  ⟨rfl, rfl, variableSetRead_success okClient variableSetData0 world0 variableSet0
    ⟨"acme-inc"⟩ rfl rfl⟩

/-- C5: `resourceTFEOrganizationMembershipRead` makes one `ReadWithOptions` call, for the
resource ID, that asks for the user to be included; when the call succeeds with a
membership (that carries its organization and its user) the handler returns nil, keeps the
resource ID and writes exactly email, the name of the organization and the ID of the user. -/
theorem membershipRead_success (c : Client σ) (d : ResourceData MembershipAttrs)
    (w : World σ) :
    (resourceTFEOrganizationMembershipRead c d w).2.2.calls
      = w.calls ++ [Call.OrganizationMemberships_ReadWithOptions d.Id
          { Include := some [OrgMembershipIncludeOpt.OrgMembershipUser] }] ∧
    ∀ (m : OrganizationMembership) (org : Organization) (u : User),
      (c.OrganizationMemberships_ReadWithOptions w.cs d.Id
        { Include := some [OrgMembershipIncludeOpt.OrgMembershipUser] }).1
          = { val := some m, err := none } →
      m.Organization = some org → m.User = some u →
      (resourceTFEOrganizationMembershipRead c d w).1 = Outcome.returned none ∧
      (resourceTFEOrganizationMembershipRead c d w).2.1.Id = d.Id ∧
      (resourceTFEOrganizationMembershipRead c d w).2.1 =
        { d with values :=
          { email := some m.Email, organization := some org.Name, user_id := some u.ID } } := by
  constructor
  · exact membershipRead_calls c d w
  · intro m org u h hOrg hUser
    simp only [ResourceData.Id] at h
    simp [resourceTFEOrganizationMembershipRead, World.invoke, h, hOrg, hUser, ResourceData.Id]

/-- Witness of C5: reading `membership0` into `membershipData0`. -/
theorem membershipRead_success_witness :
    (okClient.OrganizationMemberships_ReadWithOptions world0.cs membershipData0.Id
        { Include := some [OrgMembershipIncludeOpt.OrgMembershipUser] }).1
          = { val := some membership0, err := none } ∧
    membership0.Organization = some ⟨"acme-inc"⟩ ∧ membership0.User = some ⟨"user-7"⟩ ∧
    (resourceTFEOrganizationMembershipRead okClient membershipData0 world0).1
      = Outcome.returned none ∧
    (resourceTFEOrganizationMembershipRead okClient membershipData0 world0).2.1.Id
      = membershipData0.Id ∧
    (resourceTFEOrganizationMembershipRead okClient membershipData0 world0).2.1 =
      { membershipData0 with values :=
        { email := some "new@example.com", organization := some "acme-inc",
          user_id := some "user-7" } } :=
  ⟨rfl, rfl, rfl,
    (membershipRead_success okClient membershipData0 world0).2 membership0 ⟨"acme-inc"⟩
      ⟨"user-7"⟩ rfl rfl rfl⟩

/-- C6: `resourceTFEOrganizationMembershipCreate` makes one `Create` call, for the
configured organization and with the configured email, followed at most by the
`ReadWithOptions` call of the refresh. If `Create` fails, the handler returns a non-nil
error, leaves the resource data (and so the resource ID) as it was and makes no other
call. If `Create` succeeds with a membership, the handler returns what
`resourceTFEOrganizationMembershipRead` returns on the resource data whose ID is that
of the created membership. -/
theorem membershipCreate_spec (c : Client σ) (d : ResourceData MembershipAttrs)
    (w : World σ) :
    ((resourceTFEOrganizationMembershipCreate c d w).2.2.calls
        = w.calls ++ [Call.OrganizationMemberships_Create (getString d.values.organization)
            { Email := some (getString d.values.email) }] ∨
      ∃ id, (resourceTFEOrganizationMembershipCreate c d w).2.2.calls
        = w.calls ++ [Call.OrganizationMemberships_Create (getString d.values.organization)
            { Email := some (getString d.values.email) },
          Call.OrganizationMemberships_ReadWithOptions id
            { Include := some [OrgMembershipIncludeOpt.OrgMembershipUser] }]) ∧
    (∀ e, (c.OrganizationMemberships_Create w.cs (getString d.values.organization)
        { Email := some (getString d.values.email) }).1.err = some e →
      (∃ x, (resourceTFEOrganizationMembershipCreate c d w).1 = Outcome.returned (some x)) ∧
      (resourceTFEOrganizationMembershipCreate c d w).2.1 = d ∧
      (resourceTFEOrganizationMembershipCreate c d w).2.2.calls
        = w.calls ++ [Call.OrganizationMemberships_Create (getString d.values.organization)
            { Email := some (getString d.values.email) }]) ∧
    (∀ m, (c.OrganizationMemberships_Create w.cs (getString d.values.organization)
        { Email := some (getString d.values.email) }).1 = { val := some m, err := none } →
      resourceTFEOrganizationMembershipCreate c d w
        = resourceTFEOrganizationMembershipRead c (d.SetId m.ID)
            { cs := (c.OrganizationMemberships_Create w.cs (getString d.values.organization)
                { Email := some (getString d.values.email) }).2,
              calls := w.calls ++ [Call.OrganizationMemberships_Create
                (getString d.values.organization)
                { Email := some (getString d.values.email) }] } ∧
      (resourceTFEOrganizationMembershipCreate c d w).2.2.calls
        = w.calls ++ [Call.OrganizationMemberships_Create (getString d.values.organization)
            { Email := some (getString d.values.email) },
          Call.OrganizationMemberships_ReadWithOptions m.ID
            { Include := some [OrgMembershipIncludeOpt.OrgMembershipUser] }]) := by
  refine ⟨?_, ?_, ?_⟩
  · unfold resourceTFEOrganizationMembershipCreate
    simp only [World.invoke]
    split
    · exact Or.inl rfl
    · split
      · exact Or.inl rfl
      · rename_i m _
        refine Or.inr ⟨m.ID, ?_⟩
        rw [membershipRead_calls]
        simp [ResourceData.SetId, ResourceData.Id]
  · intro e h
    simp [resourceTFEOrganizationMembershipCreate, World.invoke, h]
  · intro m h
    have hcreate : resourceTFEOrganizationMembershipCreate c d w
        = resourceTFEOrganizationMembershipRead c (d.SetId m.ID)
            { cs := (c.OrganizationMemberships_Create w.cs (getString d.values.organization)
                { Email := some (getString d.values.email) }).2,
              calls := w.calls ++ [Call.OrganizationMemberships_Create
                (getString d.values.organization)
                { Email := some (getString d.values.email) }] } := by
      simp [resourceTFEOrganizationMembershipCreate, World.invoke, h]
    refine ⟨hcreate, ?_⟩
    rw [hcreate, membershipRead_calls]
    simp [ResourceData.SetId, ResourceData.Id]

/-- Witness of C6: a failing `Create` and a `Create` that returns `membership0`. -/
theorem membershipCreate_spec_witness :
    (((failingClient (TfeError.other "invalid email")).OrganizationMemberships_Create world0.cs
        (getString membershipData0.values.organization)
        { Email := some (getString membershipData0.values.email) }).1.err
          = some (TfeError.other "invalid email") ∧
      (∃ x, (resourceTFEOrganizationMembershipCreate (failingClient (TfeError.other
        "invalid email")) membershipData0 world0).1 = Outcome.returned (some x)) ∧
      (resourceTFEOrganizationMembershipCreate (failingClient (TfeError.other "invalid email"))
        membershipData0 world0).2.1 = membershipData0 ∧
      (resourceTFEOrganizationMembershipCreate (failingClient (TfeError.other "invalid email"))
        membershipData0 world0).2.2.calls
        = world0.calls ++ [Call.OrganizationMemberships_Create
            (getString membershipData0.values.organization)
            { Email := some (getString membershipData0.values.email) }]) ∧
    ((okClient.OrganizationMemberships_Create world0.cs
        (getString membershipData0.values.organization)
        { Email := some (getString membershipData0.values.email) }).1
          = { val := some membership0, err := none } ∧
      (resourceTFEOrganizationMembershipCreate okClient membershipData0 world0).2.2.calls
        = world0.calls ++ [Call.OrganizationMemberships_Create
            (getString membershipData0.values.organization)
            { Email := some (getString membershipData0.values.email) },
          Call.OrganizationMemberships_ReadWithOptions membership0.ID
            { Include := some [OrgMembershipIncludeOpt.OrgMembershipUser] }]) :=
  ⟨⟨rfl, (membershipCreate_spec (failingClient (TfeError.other "invalid email"))
      membershipData0 world0).2.1 (TfeError.other "invalid email") rfl⟩,
   ⟨rfl, ((membershipCreate_spec okClient membershipData0 world0).2.2 membership0 rfl).2⟩⟩

/-- The options loop of the variable set handlers, started from a non-nil list, appends one
workspace per ID, in order. -/
theorem applyOptions_foldl_some (l : List String) (acc : List Workspace) :
    l.foldl (fun (o : VariableSetUpdateWorkspacesOptions) workspaceID =>
        { o with Workspaces := GoSlice.append o.Workspaces ⟨workspaceID⟩ })
      { Workspaces := some acc }
      = { Workspaces := some (acc ++ l.map Workspace.mk) } := by
  induction l generalizing acc with
  | nil => simp
  | cons a l ih =>
    simp only [List.foldl_cons, List.map_cons]
    show List.foldl _ (VariableSetUpdateWorkspacesOptions.mk (some (acc ++ [Workspace.mk a]))) l = _
    rw [ih]
    simp

/-- The same loop started from the nil list: a nil list for no IDs, and otherwise one
workspace per ID, in order. -/
theorem applyOptions_foldl_nil (l : List String) :
    l.foldl (fun (o : VariableSetUpdateWorkspacesOptions) workspaceID =>
        { o with Workspaces := GoSlice.append o.Workspaces ⟨workspaceID⟩ })
      { Workspaces := none }
      = { Workspaces := if l = [] then none else some (l.map Workspace.mk) } := by
  cases l with
  | nil => simp
  | cons a l =>
    simp only [List.foldl_cons]
    show List.foldl _ (VariableSetUpdateWorkspacesOptions.mk (some ([] ++ [Workspace.mk a]))) l = _
    rw [applyOptions_foldl_some]
    simp

/-- The create options as `resourceTFEVariableSetCreate` builds them, in one record. -/
theorem createOptions_eq (d : ResourceData VariableSetAttrs) :
    (if (getOkString d.values.description).2 = true then
        ({ Name := some (getString d.values.name),
           Description := some (getOkString d.values.description).1,
           Global := some (getBool d.values.global) } : VariableSetCreateOptions)
      else
        { Name := some (getString d.values.name), Description := none,
          Global := some (getBool d.values.global) })
      = { Name := some (getString d.values.name),
          Description := if getString d.values.description ≠ "" then
            some (getString d.values.description) else none,
          Global := some (getBool d.values.global) } := by
  by_cases h : getString d.values.description = "" <;> simp [getOkString, h]

/-- The calls `resourceTFEVariableSetCreate` makes: `Create`; then, when it returned a
variable set and no error, either `UpdateWorkspaces` (global false and a non-empty
`workspace_ids`) followed by the `Read` of the refresh if that call returned a variable set
and no error, or the `Read` of the refresh alone. -/
theorem variableSetCreate_calls (c : Client σ) (d : ResourceData VariableSetAttrs)
    (w : World σ) (opts : VariableSetCreateOptions)
    (hopts : opts =
      { Name := some (getString d.values.name),
        Description := if getString d.values.description ≠ "" then
          some (getString d.values.description) else none,
        Global := some (getBool d.values.global) })
    (r : Ret VariableSet × σ)
    (hr : r = c.VariableSets_Create w.cs (getString d.values.organization) opts)
    (ws : List Workspace) (hws : ws = (getSet d.values.workspace_ids).list.map Workspace.mk) :
    (resourceTFEVariableSetCreate c d w).2.2.calls
      = w.calls ++ Call.VariableSets_Create (getString d.values.organization) opts ::
        (match r.1.err, r.1.val with
          | none, some created =>
            if getBool d.values.global = false ∧ (getSet d.values.workspace_ids).list ≠ [] then
              Call.VariableSets_UpdateWorkspaces created.ID { Workspaces := some ws } ::
                (match (c.VariableSets_UpdateWorkspaces r.2 created.ID
                    { Workspaces := some ws }).1.err,
                  (c.VariableSets_UpdateWorkspaces r.2 created.ID
                    { Workspaces := some ws }).1.val with
                  | none, some v => [Call.VariableSets_Read v.ID
                      { Include := some (some [VariableSetIncludeOpt.VariableSetWorkspaces]) }]
                  | _, _ => [])
            else [Call.VariableSets_Read created.ID
              { Include := some (some [VariableSetIncludeOpt.VariableSetWorkspaces]) }]
          | _, _ => []) := by
  unfold resourceTFEVariableSetCreate
  simp only [World.invoke, createOptions_eq, applyOptions_foldl_nil]
  rw [← hopts, ← hr]
  obtain ⟨⟨val, err⟩, cs⟩ := r
  have hG : opts.Global = some (getBool d.values.global) := by rw [hopts]
  cases err with
  | some e => simp
  | none =>
    cases val with
    | none =>
      simp only [hG]
      split <;> simp
    | some created =>
      simp only [hG]
      by_cases hcond :
          getBool d.values.global = false ∧ (getSet d.values.workspace_ids).list ≠ []
      · have hb : (!getBool d.values.global && (getOkSet d.values.workspace_ids).2) = true := by
          obtain ⟨h1, h2⟩ := hcond
          simp [h1, getOkSet, SchemaSet.Len, SchemaSet.list] at h2 ⊢
          exact h2
        have hne : (getOkSet d.values.workspace_ids).1.list ≠ [] := hcond.2
        rw [if_pos hb, if_pos hcond, if_neg hne]
        simp only [getOkSet, ← hws]
        generalize c.VariableSets_UpdateWorkspaces cs created.ID _ = r2
        obtain ⟨⟨val2, err2⟩, cs2⟩ := r2
        cases err2 with
        | some e2 => cases val2 <;> simp
        | none =>
          cases val2 with
          | none => simp
          | some v => simp [variableSetRead_calls, ResourceData.SetId, ResourceData.Id]
      · have hb : ¬ (!getBool d.values.global && (getOkSet d.values.workspace_ids).2) = true := by
          intro hb
          apply hcond
          simp [getOkSet, SchemaSet.Len, SchemaSet.list] at hb ⊢
          exact hb
        rw [if_neg hb, if_neg hcond]
        simp [variableSetRead_calls, ResourceData.SetId, ResourceData.Id]

/-- The set `d.Get` reads is non-empty exactly when the attribute holds a non-empty set. -/
theorem getSet_ne_nil (v : Option SchemaSet) :
    (getSet v).list ≠ [] ↔ ∃ s, v = some s ∧ s.list ≠ [] := by
  cases v with
  | none => simp [getSet, SchemaSet.empty, SchemaSet.list]
  | some s => simp [getSet]

/-- C7: when `VariableSets.Create` succeeds with a variable set, the calls
`resourceTFEVariableSetCreate` makes after it contain an `UpdateWorkspaces` call if and
only if the configured global is false and `workspace_ids` holds a non-empty set; such a
call is for the ID of the created variable set, and the IDs of its workspaces are the
elements of the configured set, each once. With global true there is no such call. -/
theorem variableSetCreate_workspaces (c : Client σ) (d : ResourceData VariableSetAttrs)
    (w : World σ) (vs : VariableSet)
    (h : (c.VariableSets_Create w.cs (getString d.values.organization)
        { Name := some (getString d.values.name),
          Description := if getString d.values.description ≠ "" then
            some (getString d.values.description) else none,
          Global := some (getBool d.values.global) }).1 = { val := some vs, err := none }) :
    ∃ rest : List Call,
      (resourceTFEVariableSetCreate c d w).2.2.calls
        = w.calls ++ Call.VariableSets_Create (getString d.values.organization)
            { Name := some (getString d.values.name),
              Description := if getString d.values.description ≠ "" then
                some (getString d.values.description) else none,
              Global := some (getBool d.values.global) } :: rest ∧
      ((∃ id o, Call.VariableSets_UpdateWorkspaces id o ∈ rest) ↔
        (getBool d.values.global = false ∧
          ∃ s, d.values.workspace_ids = some s ∧ s.list ≠ [])) ∧
      (∀ id o, Call.VariableSets_UpdateWorkspaces id o ∈ rest →
        id = vs.ID ∧ ∃ ws, o.Workspaces = some ws ∧ (ws.map Workspace.ID).Nodup ∧
          ∀ s, d.values.workspace_ids = some s → ws.map Workspace.ID = s.list) ∧
      (getBool d.values.global = true →
        ∀ id o, Call.VariableSets_UpdateWorkspaces id o ∉ rest) := by
  have hcalls := variableSetCreate_calls c d w _ rfl _ rfl _ rfl
  rw [h] at hcalls
  simp only at hcalls
  refine ⟨_, hcalls, ?_⟩
  by_cases hcond : getBool d.values.global = false ∧ (getSet d.values.workspace_ids).list ≠ []
  · rw [if_pos hcond]
    have hcond2 := hcond
    rw [getSet_ne_nil] at hcond2
    obtain ⟨hg, s, hs, hsne⟩ := hcond2
    generalize c.VariableSets_UpdateWorkspaces _ vs.ID _ = r2
    obtain ⟨⟨val2, err2⟩, cs2⟩ := r2
    have hmap : List.map Workspace.ID (List.map Workspace.mk s.list) = s.list := by
      rw [List.map_map]
      exact List.map_id _
    have key : ∀ tail : List Call,
        (∀ id o, Call.VariableSets_UpdateWorkspaces id o ∉ tail) →
        ((∃ id o, Call.VariableSets_UpdateWorkspaces id o ∈
            Call.VariableSets_UpdateWorkspaces vs.ID
              { Workspaces := some ((getSet d.values.workspace_ids).list.map Workspace.mk) }
              :: tail) ↔
          (getBool d.values.global = false ∧
            ∃ s, d.values.workspace_ids = some s ∧ s.list ≠ [])) ∧
        (∀ id o, Call.VariableSets_UpdateWorkspaces id o ∈
            Call.VariableSets_UpdateWorkspaces vs.ID
              { Workspaces := some ((getSet d.values.workspace_ids).list.map Workspace.mk) }
              :: tail →
          id = vs.ID ∧ ∃ ws, o.Workspaces = some ws ∧ (ws.map Workspace.ID).Nodup ∧
            ∀ s, d.values.workspace_ids = some s → ws.map Workspace.ID = s.list) ∧
        (getBool d.values.global = true →
          ∀ id o, Call.VariableSets_UpdateWorkspaces id o ∉
            Call.VariableSets_UpdateWorkspaces vs.ID
              { Workspaces := some ((getSet d.values.workspace_ids).list.map Workspace.mk) }
              :: tail) := by
      intro tail htail
      refine ⟨⟨fun _ => ⟨hg, s, hs, hsne⟩, fun _ => ⟨_, _, List.mem_cons_self _ _⟩⟩, ?_, ?_⟩
      · intro id o hmem
        rcases List.mem_cons.mp hmem with heq | hmem
        · injection heq with hid ho
          subst hid ho
          refine ⟨rfl, _, rfl, ?_, ?_⟩
          · simp only [hs, getSet, Option.getD_some, hmap]
            exact s.nodup
          · intro s2 hs2
            rw [hs] at hs2
            injection hs2 with hs2
            subst hs2
            simp only [hs, getSet, Option.getD_some, hmap]
        · exact absurd hmem (htail id o)
      · intro hg2
        rw [hg] at hg2
        exact absurd hg2 (by decide)
    cases err2 with
    | some e2 => exact key [] (by simp)
    | none =>
      cases val2 with
      | none => exact key [] (by simp)
      | some v => exact key _ (by simp)
  · rw [if_neg hcond]
    have hcond2 := hcond
    rw [getSet_ne_nil] at hcond2
    refine ⟨⟨?_, fun hc => absurd hc hcond2⟩, ?_, ?_⟩
    · rintro ⟨id, o, hmem⟩
      simp at hmem
    · intro id o hmem
      simp at hmem
    · intro _ id o hmem
      simp at hmem

/-- Witness of C7: creating `variableSetData0` (global false, two workspaces) on a client
whose `Create` returns `variableSet0`. -/
theorem variableSetCreate_workspaces_witness :
    (okClient.VariableSets_Create world0.cs (getString variableSetData0.values.organization)
        { Name := some (getString variableSetData0.values.name),
          Description := if getString variableSetData0.values.description ≠ "" then
            some (getString variableSetData0.values.description) else none,
          Global := some (getBool variableSetData0.values.global) }).1
      = { val := some variableSet0, err := none } ∧
    ∃ rest : List Call,
      (resourceTFEVariableSetCreate okClient variableSetData0 world0).2.2.calls
        = world0.calls ++ Call.VariableSets_Create
            (getString variableSetData0.values.organization)
            { Name := some (getString variableSetData0.values.name),
              Description := if getString variableSetData0.values.description ≠ "" then
                some (getString variableSetData0.values.description) else none,
              Global := some (getBool variableSetData0.values.global) } :: rest ∧
      ((∃ id o, Call.VariableSets_UpdateWorkspaces id o ∈ rest) ↔
        (getBool variableSetData0.values.global = false ∧
          ∃ s, variableSetData0.values.workspace_ids = some s ∧ s.list ≠ [])) ∧
      (∀ id o, Call.VariableSets_UpdateWorkspaces id o ∈ rest →
        id = variableSet0.ID ∧ ∃ ws, o.Workspaces = some ws ∧ (ws.map Workspace.ID).Nodup ∧
          ∀ s, variableSetData0.values.workspace_ids = some s → ws.map Workspace.ID = s.list) ∧
      (getBool variableSetData0.values.global = true →
        ∀ id o, Call.VariableSets_UpdateWorkspaces id o ∉ rest) :=
  ⟨rfl, variableSetCreate_workspaces okClient variableSetData0 world0 variableSet0 rfl⟩

/-- C8: the first call of `resourceTFEVariableSetCreate` is `VariableSets.Create` for the
configured organization, and no later call is a `Create`; its options carry the configured
name, the configured global (false when not configured), and a description exactly when
the configured description is a non-empty string, which is then the description sent. -/
theorem variableSetCreate_options (c : Client σ) (d : ResourceData VariableSetAttrs)
    (w : World σ) :
    ∃ (opts : VariableSetCreateOptions) (rest : List Call),
      (resourceTFEVariableSetCreate c d w).2.2.calls
        = w.calls ++ Call.VariableSets_Create (getString d.values.organization) opts :: rest ∧
      (∀ org o, Call.VariableSets_Create org o ∉ rest) ∧
      opts.Name = some (getString d.values.name) ∧
      (∀ b, d.values.global = some b → opts.Global = some b) ∧
      (d.values.global = none → opts.Global = some false) ∧
      (∀ s, opts.Description = some s ↔ (d.values.description = some s ∧ s ≠ "")) ∧
      (d.values.description = none ∨ d.values.description = some "" →
        opts.Description = none) := by
  refine ⟨_, _, variableSetCreate_calls c d w _ rfl _ rfl _ rfl, ?_, rfl, ?_, ?_, ?_, ?_⟩
  · intro org o
    generalize c.VariableSets_Create w.cs _ _ = r
    obtain ⟨⟨val, err⟩, cs⟩ := r
    cases err with
    | some e => simp
    | none =>
      cases val with
      | none => simp
      | some created =>
        simp only
        split
        · generalize c.VariableSets_UpdateWorkspaces cs created.ID _ = r2
          obtain ⟨⟨val2, err2⟩, cs2⟩ := r2
          cases err2 with
          | some e2 => simp
          | none => cases val2 <;> simp
        · simp
  · intro b hb
    simp [getBool, hb]
  · intro hb
    simp [getBool, hb]
  · intro s
    cases hdesc : d.values.description with
    | none => simp [getString]
    | some t =>
      simp only [getString, Option.getD_some]
      by_cases ht : t = ""
      · subst ht
        simp only [ne_eq, not_true_eq_false, if_false, Option.some.injEq]
        constructor
        · intro h1
          exact absurd h1 (by simp)
        · rintro ⟨h1, h2⟩
          exact absurd h1.symm h2
      · simp only [ne_eq, ht, not_false_eq_true, if_true, Option.some.injEq]
        constructor
        · intro h1
          subst h1
          exact ⟨rfl, ht⟩
        · intro h1
          exact h1.1
  · rintro (h | h) <;> simp [getString, h]

/-- C9, as the code has it: `resourceTFEVariableSetUpdate` calls `VariableSets.Update`
exactly when name, description or global changed, for the resource ID and with the three
current values (description as the empty string when unset). It calls
`VariableSets.UpdateWorkspaces` exactly when `workspace_ids` changed and the `Update`
call, if one was made, returned no error; the call is for the resource ID and carries the
current workspace IDs as a non-nil list, the empty list for an empty set. When nothing
changed the handler is the refresh `resourceTFEVariableSetRead` alone. -/
theorem variableSetUpdate_calls (c : Client σ) (d : ResourceData VariableSetAttrs)
    (w : World σ) :
    ∃ new : List Call,
      (resourceTFEVariableSetUpdate c d w).2.2.calls = w.calls ++ new ∧
      (∀ id o, Call.VariableSets_Update id o ∈ new ↔
        ((hasChangeString d.state.name d.planned.name
            || hasChangeString d.state.description d.planned.description
            || hasChangeBool d.state.global d.planned.global) = true ∧
          id = d.Id ∧
          o = { Name := some (getString d.values.name),
                Description := some (getString d.values.description),
                Global := some (getBool d.values.global) })) ∧
      (∀ id o, Call.VariableSets_UpdateWorkspaces id o ∈ new ↔
        (hasChangeSet d.state.workspace_ids d.planned.workspace_ids = true ∧
          ((hasChangeString d.state.name d.planned.name
              || hasChangeString d.state.description d.planned.description
              || hasChangeBool d.state.global d.planned.global) = true →
            (c.VariableSets_Update w.cs d.Id
              { Name := some (getString d.values.name),
                Description := some (getString d.values.description),
                Global := some (getBool d.values.global) }).1.err = none) ∧
          id = d.Id ∧
          o = { Workspaces :=
            some ((getSet d.values.workspace_ids).list.map Workspace.mk) })) ∧
      ((getSet d.values.workspace_ids).list = [] →
        ∀ id o, Call.VariableSets_UpdateWorkspaces id o ∈ new → o.Workspaces = some []) ∧
      ((hasChangeString d.state.name d.planned.name
            || hasChangeString d.state.description d.planned.description
            || hasChangeBool d.state.global d.planned.global) = false ∧
          hasChangeSet d.state.workspace_ids d.planned.workspace_ids = false →
        resourceTFEVariableSetUpdate c d w = resourceTFEVariableSetRead c d w) := by
  unfold resourceTFEVariableSetUpdate
  simp only [World.invoke, applyOptions_foldl_some, List.nil_append]
  have hnil : (getSet d.values.workspace_ids).list = [] →
      (VariableSetUpdateWorkspacesOptions.mk
        (some ((getSet d.values.workspace_ids).list.map Workspace.mk))).Workspaces = some [] := by
    intro h0
    rw [h0]
    rfl
  generalize (VariableSetUpdateWorkspacesOptions.mk
    (some ((getSet d.values.workspace_ids).list.map Workspace.mk))) = optsW at hnil ⊢
  generalize (VariableSetUpdateOptions.mk (some (getString d.values.name))
    (some (getString d.values.description)) (some (getBool d.values.global))) = optsU
  by_cases hchg : (hasChangeString d.state.name d.planned.name
      || hasChangeString d.state.description d.planned.description
      || hasChangeBool d.state.global d.planned.global) = true
  · simp only [if_pos hchg]
    generalize c.VariableSets_Update w.cs d.Id optsU = rU
    obtain ⟨⟨valU, errU⟩, csU⟩ := rU
    cases errU with
    | some e =>
      refine ⟨[Call.VariableSets_Update d.Id optsU], rfl, ?_, ?_, ?_, ?_⟩ <;> simp [hchg]
    | none =>
      by_cases hW : hasChangeSet d.state.workspace_ids d.planned.workspace_ids = true
      · simp only [if_pos hW]
        generalize c.VariableSets_UpdateWorkspaces csU d.Id optsW = rW
        obtain ⟨⟨valW, errW⟩, csW⟩ := rW
        cases errW with
        | some e =>
          refine ⟨[Call.VariableSets_Update d.Id optsU,
            Call.VariableSets_UpdateWorkspaces d.Id optsW], by simp, ?_, ?_, ?_, ?_⟩
            <;> simp [hchg, hW]
          exact hnil
        | none =>
          refine ⟨[Call.VariableSets_Update d.Id optsU,
            Call.VariableSets_UpdateWorkspaces d.Id optsW,
            Call.VariableSets_Read d.Id
              { Include := some (some [VariableSetIncludeOpt.VariableSetWorkspaces]) }],
            by simp [variableSetRead_calls], ?_, ?_, ?_, ?_⟩ <;> simp [hchg, hW]
          exact hnil
      · simp only [if_neg hW]
        refine ⟨[Call.VariableSets_Update d.Id optsU,
          Call.VariableSets_Read d.Id
            { Include := some (some [VariableSetIncludeOpt.VariableSetWorkspaces]) }],
          by simp [variableSetRead_calls], ?_, ?_, ?_, ?_⟩ <;> simp [hchg, hW]
  · simp only [if_neg hchg]
    by_cases hW : hasChangeSet d.state.workspace_ids d.planned.workspace_ids = true
    · simp only [if_pos hW]
      generalize c.VariableSets_UpdateWorkspaces w.cs d.Id optsW = rW
      obtain ⟨⟨valW, errW⟩, csW⟩ := rW
      cases errW with
      | some e =>
        refine ⟨[Call.VariableSets_UpdateWorkspaces d.Id optsW], by simp, ?_, ?_, ?_, ?_⟩
          <;> simp [hchg, hW]
        exact hnil
      | none =>
        refine ⟨[Call.VariableSets_UpdateWorkspaces d.Id optsW,
          Call.VariableSets_Read d.Id
            { Include := some (some [VariableSetIncludeOpt.VariableSetWorkspaces]) }],
          by simp [variableSetRead_calls], ?_, ?_, ?_, ?_⟩ <;> simp [hchg, hW]
        exact hnil
    · simp only [if_neg hW]
      refine ⟨[Call.VariableSets_Read d.Id
          { Include := some (some [VariableSetIncludeOpt.VariableSetWorkspaces]) }],
        by simp [variableSetRead_calls], ?_, ?_, ?_, ?_⟩ <;> simp [hchg, hW]

/-- C9 as stated fails: with the name and `workspace_ids` both changed and a failing
`VariableSets.Update`, `workspace_ids` changed and yet the only call made is the `Update`
call, so no `UpdateWorkspaces` call is made. -/
theorem variableSetUpdate_counterexample :
    (resourceTFEVariableSetUpdate (failingClient (TfeError.other "name taken"))
        variableSetData1 world0).2.2.calls
      = [Call.VariableSets_Update "varset-1"
          { Name := some "vars-renamed", Description := some "shared", Global := some false }] ∧
    ¬ ((∃ id o, Call.VariableSets_UpdateWorkspaces id o ∈
          (resourceTFEVariableSetUpdate (failingClient (TfeError.other "name taken"))
            variableSetData1 world0).2.2.calls) ↔
        hasChangeSet variableSetData1.state.workspace_ids
          variableSetData1.planned.workspace_ids = true) := by
  have hcalls : (resourceTFEVariableSetUpdate (failingClient (TfeError.other "name taken"))
        variableSetData1 world0).2.2.calls
      = [Call.VariableSets_Update "varset-1"
          { Name := some "vars-renamed", Description := some "shared", Global := some false }] := by
    decide
  refine ⟨hcalls, ?_⟩
  rw [hcalls]
  intro hiff
  have hchanged : hasChangeSet variableSetData1.state.workspace_ids
      variableSetData1.planned.workspace_ids = true := by decide
  obtain ⟨id, o, hmem⟩ := hiff.mpr hchanged
  simp at hmem

/-- C10 fails on the code: on a listing that holds "terraform-updated", "tst-terraform-42"
and "production" the sweeper returns nil after deleting "tst-terraform-42" only; the
organization named "terraform-updated" is not deleted. -/
theorem orgSweeper_keeps_terraform_updated :
    ((getOrgSweeper (Except.ok sweepClient) "org_sweeper").F "" world0).1
      = Outcome.returned none ∧
    ((getOrgSweeper (Except.ok sweepClient) "org_sweeper").F "" world0).2.calls
      = [Call.Organizations_List, Call.Organizations_Delete "tst-terraform-42"] ∧
    Call.Organizations_Delete "terraform-updated" ∉
      ((getOrgSweeper (Except.ok sweepClient) "org_sweeper").F "" world0).2.calls := by
  decide

/-- Whenever `VariableSets.Create` returns a variable set and no error, global is false,
`workspace_ids` holds a non-empty set and `VariableSets.UpdateWorkspaces` returns an error
with no variable set, `resourceTFEVariableSetCreate` panics: it reads the ID of the
missing variable set to build its error. The resource data is as it was. -/
theorem variableSetCreate_apply_error (c : Client σ) (d : ResourceData VariableSetAttrs)
    (w : World σ) (vs : VariableSet) (e : TfeError)
    (hcreate : (c.VariableSets_Create w.cs (getString d.values.organization)
        { Name := some (getString d.values.name),
          Description := if getString d.values.description ≠ "" then
            some (getString d.values.description) else none,
          Global := some (getBool d.values.global) }).1 = { val := some vs, err := none })
    (hglobal : getBool d.values.global = false)
    (hset : (getSet d.values.workspace_ids).list ≠ [])
    (happly : (c.VariableSets_UpdateWorkspaces
        (c.VariableSets_Create w.cs (getString d.values.organization)
          { Name := some (getString d.values.name),
            Description := if getString d.values.description ≠ "" then
              some (getString d.values.description) else none,
            Global := some (getBool d.values.global) }).2
        vs.ID
        { Workspaces := some ((getSet d.values.workspace_ids).list.map Workspace.mk) }).1
      = { val := none, err := some e }) :
    (resourceTFEVariableSetCreate c d w).1 = Outcome.panicked ∧
    (resourceTFEVariableSetCreate c d w).2.1 = d := by
  have hb : (!getBool d.values.global && (getOkSet d.values.workspace_ids).2) = true := by
    simp [hglobal, getOkSet, SchemaSet.Len, SchemaSet.list] at hset ⊢
    exact hset
  have hne : (getOkSet d.values.workspace_ids).1.list ≠ [] := hset
  unfold resourceTFEVariableSetCreate
  simp only [World.invoke, createOptions_eq, applyOptions_foldl_nil]
  rw [hcreate]
  simp only [if_pos hb, if_neg hne]
  simp only [getOkSet] at happly ⊢
  rw [happly]
  exact ⟨rfl, rfl⟩

/-- C11 fails on the code: on `variableSetNew` (no ID yet, global false, two workspaces),
with a `Create` that returns `variableSet0` and an `UpdateWorkspaces` that returns an error
and no variable set, `resourceTFEVariableSetCreate` makes the two calls and then panics on
the missing variable set; it returns no error at all. The resource ID is still empty. -/
theorem variableSetCreate_panics_on_apply_error :
    (resourceTFEVariableSetCreate applyFailsClient variableSetNew world0).1
      = Outcome.panicked ∧
    (¬ ∃ x, (resourceTFEVariableSetCreate applyFailsClient variableSetNew world0).1
      = Outcome.returned (some x)) ∧
    (resourceTFEVariableSetCreate applyFailsClient variableSetNew world0).2.2.calls
      = [Call.VariableSets_Create "acme"
          { Name := some "vars", Description := some "shared", Global := some false },
        Call.VariableSets_UpdateWorkspaces "varset-9"
          { Workspaces := some [⟨"ws-1"⟩, ⟨"ws-2"⟩] }] ∧
    (resourceTFEVariableSetCreate applyFailsClient variableSetNew world0).2.1.Id = "" := by
  have h := variableSetCreate_apply_error applyFailsClient variableSetNew world0
    variableSet0 (TfeError.other "workspace not found") rfl (by decide) (by decide) rfl
  refine ⟨h.1, ?_, by decide, ?_⟩
  · rintro ⟨x, hx⟩
    rw [h.1] at hx
    cases hx
  · rw [h.2]
    rfl

/-- C12: if the `VariableSets.Update` call of `resourceTFEVariableSetUpdate` fails, the
handler returns a non-nil error, leaves the resource data as it was and has made that one
call only (no `UpdateWorkspaces`, no read). If `Update` returned no error or was skipped
and the `VariableSets.UpdateWorkspaces` call fails, the handler returns a non-nil error,
leaves the resource data as it was, and its last call is that `UpdateWorkspaces` (no
read). -/
theorem variableSetUpdate_errors (c : Client σ) (d : ResourceData VariableSetAttrs)
    (w : World σ) :
    (∀ e,
      (hasChangeString d.state.name d.planned.name
        || hasChangeString d.state.description d.planned.description
        || hasChangeBool d.state.global d.planned.global) = true →
      (c.VariableSets_Update w.cs d.Id
        { Name := some (getString d.values.name),
          Description := some (getString d.values.description),
          Global := some (getBool d.values.global) }).1.err = some e →
      (∃ x, (resourceTFEVariableSetUpdate c d w).1 = Outcome.returned (some x)) ∧
      (resourceTFEVariableSetUpdate c d w).2.1 = d ∧
      (resourceTFEVariableSetUpdate c d w).2.2.calls
        = w.calls ++ [Call.VariableSets_Update d.Id
            { Name := some (getString d.values.name),
              Description := some (getString d.values.description),
              Global := some (getBool d.values.global) }]) ∧
    (∀ e,
      (hasChangeString d.state.name d.planned.name
        || hasChangeString d.state.description d.planned.description
        || hasChangeBool d.state.global d.planned.global) = true →
      (c.VariableSets_Update w.cs d.Id
        { Name := some (getString d.values.name),
          Description := some (getString d.values.description),
          Global := some (getBool d.values.global) }).1.err = none →
      hasChangeSet d.state.workspace_ids d.planned.workspace_ids = true →
      (c.VariableSets_UpdateWorkspaces
        (c.VariableSets_Update w.cs d.Id
          { Name := some (getString d.values.name),
            Description := some (getString d.values.description),
            Global := some (getBool d.values.global) }).2
        d.Id
        { Workspaces := some ((getSet d.values.workspace_ids).list.map Workspace.mk) }).1.err
          = some e →
      (∃ x, (resourceTFEVariableSetUpdate c d w).1 = Outcome.returned (some x)) ∧
      (resourceTFEVariableSetUpdate c d w).2.1 = d ∧
      (resourceTFEVariableSetUpdate c d w).2.2.calls
        = w.calls ++ [Call.VariableSets_Update d.Id
            { Name := some (getString d.values.name),
              Description := some (getString d.values.description),
              Global := some (getBool d.values.global) },
          Call.VariableSets_UpdateWorkspaces d.Id
            { Workspaces :=
                some ((getSet d.values.workspace_ids).list.map Workspace.mk) }]) ∧
    (∀ e,
      (hasChangeString d.state.name d.planned.name
        || hasChangeString d.state.description d.planned.description
        || hasChangeBool d.state.global d.planned.global) = false →
      hasChangeSet d.state.workspace_ids d.planned.workspace_ids = true →
      (c.VariableSets_UpdateWorkspaces w.cs d.Id
        { Workspaces := some ((getSet d.values.workspace_ids).list.map Workspace.mk) }).1.err
          = some e →
      (∃ x, (resourceTFEVariableSetUpdate c d w).1 = Outcome.returned (some x)) ∧
      (resourceTFEVariableSetUpdate c d w).2.1 = d ∧
      (resourceTFEVariableSetUpdate c d w).2.2.calls
        = w.calls ++ [Call.VariableSets_UpdateWorkspaces d.Id
            { Workspaces :=
                some ((getSet d.values.workspace_ids).list.map Workspace.mk) }]) := by
  refine ⟨?_, ?_, ?_⟩
  · intro e hchg hU
    unfold resourceTFEVariableSetUpdate
    simp only [World.invoke, applyOptions_foldl_some, List.nil_append, if_pos hchg, hU]
    simp
  · intro e hchg hU hW hA
    unfold resourceTFEVariableSetUpdate
    simp only [World.invoke, applyOptions_foldl_some, List.nil_append, if_pos hchg, hU,
      if_pos hW, hA]
    simp
  · intro e hchg hW hA
    have hchg2 : ¬ (hasChangeString d.state.name d.planned.name
        || hasChangeString d.state.description d.planned.description
        || hasChangeBool d.state.global d.planned.global) = true := by
      rw [hchg]
      decide
    unfold resourceTFEVariableSetUpdate
    simp only [World.invoke, applyOptions_foldl_some, List.nil_append, if_neg hchg2,
      if_pos hW, hA]
    simp

/-- Witness of C12: a failing `Update` on `variableSetData1`; a failing `UpdateWorkspaces`
after a successful `Update` on `variableSetData1`; and a failing `UpdateWorkspaces` with
`Update` skipped on `variableSetData2`. -/
theorem variableSetUpdate_errors_witness :
    ((∃ x, (resourceTFEVariableSetUpdate (failingClient (TfeError.other "name taken"))
        variableSetData1 world0).1 = Outcome.returned (some x)) ∧
      (resourceTFEVariableSetUpdate (failingClient (TfeError.other "name taken"))
        variableSetData1 world0).2.1 = variableSetData1 ∧
      (resourceTFEVariableSetUpdate (failingClient (TfeError.other "name taken"))
        variableSetData1 world0).2.2.calls
        = world0.calls ++ [Call.VariableSets_Update variableSetData1.Id
            { Name := some (getString variableSetData1.values.name),
              Description := some (getString variableSetData1.values.description),
              Global := some (getBool variableSetData1.values.global) }]) ∧
    ((∃ x, (resourceTFEVariableSetUpdate applyFailsClient variableSetData1 world0).1
        = Outcome.returned (some x)) ∧
      (resourceTFEVariableSetUpdate applyFailsClient variableSetData1 world0).2.1
        = variableSetData1 ∧
      (resourceTFEVariableSetUpdate applyFailsClient variableSetData1 world0).2.2.calls
        = world0.calls ++ [Call.VariableSets_Update variableSetData1.Id
            { Name := some (getString variableSetData1.values.name),
              Description := some (getString variableSetData1.values.description),
              Global := some (getBool variableSetData1.values.global) },
          Call.VariableSets_UpdateWorkspaces variableSetData1.Id
            { Workspaces :=
                some ((getSet variableSetData1.values.workspace_ids).list.map
                  Workspace.mk) }]) ∧
    ((∃ x, (resourceTFEVariableSetUpdate applyFailsClient variableSetData2 world0).1
        = Outcome.returned (some x)) ∧
      (resourceTFEVariableSetUpdate applyFailsClient variableSetData2 world0).2.1
        = variableSetData2 ∧
      (resourceTFEVariableSetUpdate applyFailsClient variableSetData2 world0).2.2.calls
        = world0.calls ++ [Call.VariableSets_UpdateWorkspaces variableSetData2.Id
            { Workspaces :=
                some ((getSet variableSetData2.values.workspace_ids).list.map
                  Workspace.mk) }]) :=
  ⟨(variableSetUpdate_errors (failingClient (TfeError.other "name taken")) variableSetData1
      world0).1 (TfeError.other "name taken") (by decide) rfl,
   (variableSetUpdate_errors applyFailsClient variableSetData1 world0).2.1
      (TfeError.other "workspace not found") (by decide) rfl (by decide) rfl,
   (variableSetUpdate_errors applyFailsClient variableSetData2 world0).2.2
      (TfeError.other "workspace not found") (by decide) (by decide) rfl⟩

/-- What is left after a literal: the input without that text in front. -/
theorem mem_consume_literal (text : String) (input rest : List Char) :
    rest ∈ (Regexp.literal text).consume input ↔ input = text.toList ++ rest := by
  simp only [Regexp.consume]
  split
  · rename_i h
    rw [List.isPrefixOf_iff_prefix] at h
    obtain ⟨t, ht⟩ := h
    subst ht
    simp [eq_comm]
  · rename_i h
    rw [List.isPrefixOf_iff_prefix] at h
    simp only [List.not_mem_nil, false_iff]
    intro heq
    exact h ⟨rest, heq.symm⟩

/-- What is left after a character class: the input without its first character, which
is in the class. -/
theorem mem_consume_charClass (ranges : List (Char × Char)) (input rest : List Char) :
    rest ∈ (Regexp.charClass ranges).consume input ↔
      ∃ c, input = c :: rest ∧ inClass ranges c = true := by
  cases input with
  | nil => simp [Regexp.consume]
  | cons c tl =>
    simp only [Regexp.consume]
    split
    · rename_i h
      simp only [List.mem_singleton, List.cons.injEq]
      constructor
      · intro hr
        exact ⟨c, ⟨rfl, hr.symm⟩, h⟩
      · rintro ⟨c2, ⟨_, hr⟩, _⟩
        exact hr.symm
    · rename_i h
      simp only [List.not_mem_nil, List.cons.injEq, false_iff]
      rintro ⟨c2, ⟨hc, _⟩, hin⟩
      subst hc
      exact h hin

/-- What is left after `n` characters of a class: the input without its first `n`
characters, which are all in the class. -/
theorem mem_consumeN_charClass (ranges : List (Char × Char)) (n : Nat)
    (input rest : List Char) :
    rest ∈ consumeN (Regexp.charClass ranges).consume n input ↔
      ∃ t, input = t ++ rest ∧ t.length = n ∧ ∀ c ∈ t, inClass ranges c = true := by
  induction n generalizing input with
  | zero =>
    simp only [consumeN, List.mem_singleton]
    constructor
    · intro h
      exact ⟨[], by simp [h], rfl, by simp⟩
    · rintro ⟨t, ht, hlen, _⟩
      rw [List.length_eq_zero] at hlen
      subst hlen
      simpa using ht.symm
  | succ n ih =>
    simp only [consumeN, List.mem_flatMap]
    constructor
    · rintro ⟨mid, hmid, hrest⟩
      rw [mem_consume_charClass] at hmid
      obtain ⟨c, hc, hin⟩ := hmid
      obtain ⟨t, ht, hlen, hall⟩ := (ih mid).mp hrest
      refine ⟨c :: t, by simp [hc, ht], by simp [hlen], ?_⟩
      intro x hx
      rcases List.mem_cons.mp hx with rfl | hx
      · exact hin
      · exact hall x hx
    · rintro ⟨t, ht, hlen, hall⟩
      cases t with
      | nil => simp at hlen
      | cons c t =>
        refine ⟨t ++ rest, ?_, ?_⟩
        · rw [mem_consume_charClass]
          exact ⟨c, by simpa using ht, hall c (List.mem_cons_self _ _)⟩
        · exact (ih (t ++ rest)).mpr ⟨t, rfl, by simpa using hlen,
            fun x hx => hall x (List.mem_cons_of_mem _ hx)⟩

/-- The anchor `$` matches at the end of the input only, and leaves nothing. -/
theorem mem_consume_endText (input rest : List Char) :
    rest ∈ Regexp.endText.consume input ↔ input = [] ∧ rest = [] := by
  cases input with
  | nil => simp [Regexp.consume]
  | cons c tl => simp [Regexp.consume]

/-- The ranges of the class `[a-zA-Z0-9]` hold the ASCII letters and digits. -/
theorem inClass_alnum (c : Char) :
    inClass [('a', 'z'), ('A', 'Z'), ('0', '9')] c = true ↔ asciiLetterOrDigit c := by
  simp [inClass, asciiLetterOrDigit]

/-- The pattern matches at the start of an input exactly when the input is "varset-"
followed by 16 ASCII letters or digits and nothing else. -/
theorem consume_variableSetIdRegexp (input : List Char) :
    (variableSetIdRegexp.consume input).isEmpty = false ↔
      ∃ t, input = "varset-".toList ++ t ∧ t.length = 16 ∧ ∀ c ∈ t, asciiLetterOrDigit c := by
  have hne : (variableSetIdRegexp.consume input).isEmpty = false ↔
      ∃ rest, rest ∈ variableSetIdRegexp.consume input := by
    cases h : variableSetIdRegexp.consume input with
    | nil => simp
    | cons a l => simp only [List.isEmpty_cons, true_iff]; exact ⟨a, List.mem_cons_self _ _⟩
  rw [hne]
  have hcat : ∀ rest, rest ∈ variableSetIdRegexp.consume input ↔
      ∃ mid, mid ∈ (Regexp.literal "varset-").consume input ∧
        ∃ mid2, mid2 ∈ consumeN
            (Regexp.charClass [('a', 'z'), ('A', 'Z'), ('0', '9')]).consume 16 mid ∧
          rest ∈ Regexp.endText.consume mid2 := by
    intro rest
    simp only [variableSetIdRegexp, Regexp.consume, List.mem_flatMap]
  constructor
  · rintro ⟨rest, hrest⟩
    obtain ⟨mid, hmid, mid2, hmid2, hend⟩ := (hcat rest).mp hrest
    rw [mem_consume_literal] at hmid
    rw [mem_consumeN_charClass] at hmid2
    obtain ⟨t, ht, hlen, hall⟩ := hmid2
    rw [mem_consume_endText] at hend
    obtain ⟨hnil, _⟩ := hend
    subst hnil
    refine ⟨t, ?_, hlen, fun c hc => (inClass_alnum c).mp (hall c hc)⟩
    rw [hmid, ht, List.append_nil]
  · rintro ⟨t, ht, hlen, hall⟩
    refine ⟨[], (hcat []).mpr ⟨t, ?_, [], ?_, ?_⟩⟩
    · rw [mem_consume_literal]
      exact ht
    · rw [mem_consumeN_charClass]
      exact ⟨t, by simp, hlen, fun c hc => (inClass_alnum c).mpr (hall c hc)⟩
    · rw [mem_consume_endText]
      exact ⟨rfl, rfl⟩

/-- `MatchString` on the characters of the text: the pattern matches exactly when the text
is some prefix, then "varset-", then 16 ASCII letters or digits up to its end. -/
theorem matchString_variableSetIdRegexp_iff (s : String) :
    variableSetIdRegexp.MatchString s = true ↔
      ∃ pre t : List Char, s.toList = pre ++ ("varset-".toList ++ t) ∧ t.length = 16 ∧
        ∀ c ∈ t, asciiLetterOrDigit c := by
  simp only [Regexp.MatchString, List.any_eq_true, List.mem_tails, Bool.not_eq_true']
  constructor
  · rintro ⟨suffix, ⟨pre, hpre⟩, hmatch⟩
    obtain ⟨t, ht, hlen, hall⟩ := (consume_variableSetIdRegexp suffix).mp hmatch
    exact ⟨pre, t, by rw [← hpre, ht], hlen, hall⟩
  · rintro ⟨pre, t, hs, hlen, hall⟩
    exact ⟨"varset-".toList ++ t, ⟨pre, hs.symm⟩,
      (consume_variableSetIdRegexp _).mpr ⟨t, rfl, hlen, hall⟩⟩

/-- Two ways of cutting a list before an element that fails `P`, after elements that all
satisfy `P`, cut at the same place. -/
theorem prefix_before_bad_unique {α : Type} (P : α → Prop) (a : List α) :
    ∀ (a2 : List α) (x x2 : α) (b b2 : List α), (∀ y ∈ a, P y) → (∀ y ∈ a2, P y) →
      ¬ P x → ¬ P x2 → a ++ x :: b = a2 ++ x2 :: b2 → a = a2 := by
  induction a with
  | nil =>
    intro a2 x x2 b b2 _ ha2 hx _ h
    cases a2 with
    | nil => rfl
    | cons y a2 =>
      simp only [List.nil_append, List.cons_append, List.cons.injEq] at h
      exact absurd (h.1 ▸ ha2 y (List.mem_cons_self _ _)) hx
  | cons y a ih =>
    intro a2 x x2 b b2 ha ha2 hx hx2 h
    cases a2 with
    | nil =>
      simp only [List.nil_append, List.cons_append, List.cons.injEq] at h
      exact absurd (h.1 ▸ ha y (List.mem_cons_self _ _)) hx2
    | cons y2 a2 =>
      simp only [List.cons_append, List.cons.injEq] at h
      rw [h.1, ih a2 x x2 b b2 (fun z hz => ha z (List.mem_cons_of_mem _ hz))
        (fun z hz => ha2 z (List.mem_cons_of_mem _ hz)) hx hx2 h.2]

/-- In a text that ends with "varset-" followed by ASCII letters and digits only, that
run of letters and digits is determined by the text. -/
theorem tail_after_varset_unique (pre pre2 t t2 : List Char)
    (ht : ∀ c ∈ t, asciiLetterOrDigit c) (ht2 : ∀ c ∈ t2, asciiLetterOrDigit c)
    (h : pre ++ ("varset-".toList ++ t) = pre2 ++ ("varset-".toList ++ t2)) : t = t2 := by
  have hdash : ¬ asciiLetterOrDigit '-' := by decide
  have hsplit : ∀ (q u : List Char),
      (q ++ ("varset-".toList ++ u)).reverse
        = u.reverse ++ '-' :: ("varset".toList.reverse ++ q.reverse) := by
    intro q u
    have hw : "varset-".toList = "varset".toList ++ ['-'] := by decide
    rw [hw]
    simp [List.reverse_append]
  have hrev := congrArg List.reverse h
  rw [hsplit, hsplit] at hrev
  have := prefix_before_bad_unique asciiLetterOrDigit t.reverse t2.reverse '-' '-' _ _
    (fun c hc => ht c (List.mem_reverse.mp hc)) (fun c hc => ht2 c (List.mem_reverse.mp hc))
    hdash hdash hrev
  exact List.reverse_injective this

/-- The characters of a prefix followed by "varset-" and a tail. -/
theorem toList_varset (p t : String) :
    (p ++ "varset-" ++ t).toList = p.toList ++ ("varset-".toList ++ t.toList) := by
  simp [String.toList, String.data_append, List.append_assoc]

/-- A text does not match when one of its last 16 characters (or fewer) is not an ASCII
letter or digit. -/
theorem no_match_of_bad_suffix (s : String) (u : List Char) (hu : u <:+ s.toList)
    (hlen : u.length ≤ 16) (hbad : ∃ c ∈ u, ¬ asciiLetterOrDigit c) :
    variableSetIdRegexp.MatchString s = false := by
  rw [Bool.eq_false_iff]
  intro hmatch
  rw [matchString_variableSetIdRegexp_iff] at hmatch
  obtain ⟨pre2, t2, hs, hlen2, hall2⟩ := hmatch
  have ht2 : t2 <:+ s.toList := ⟨pre2 ++ "varset-".toList, by rw [hs, List.append_assoc]⟩
  have hsub : u <:+ t2 := List.suffix_of_suffix_length_le hu ht2 (by rw [hlen2]; exact hlen)
  obtain ⟨c, hc, hbad⟩ := hbad
  exact hbad (hall2 c (hsub.subset hc))

/-- C13: `variableSetIdRegexp` matches a string exactly when the string ends with "varset-"
followed by exactly 16 ASCII letters or digits that run to its end. So it matches
`p ++ "varset-" ++ t` for every prefix `p` when `t` is 16 ASCII letters or digits. It does
not match `p ++ "varset-" ++ t` when `t` is fewer or more than 16 ASCII letters or digits,
nor when `t` is at most 16 characters of which one is not an ASCII letter or digit, nor
any string whose last character is not an ASCII letter or digit. -/
theorem variableSetIdRegexp_spec :
    (∀ s : String, variableSetIdRegexp.MatchString s = true ↔
      ∃ p t : String, s = p ++ "varset-" ++ t ∧ t.length = 16 ∧
        ∀ c ∈ t.toList, asciiLetterOrDigit c) ∧
    (∀ p t : String, t.length = 16 → (∀ c ∈ t.toList, asciiLetterOrDigit c) →
      variableSetIdRegexp.MatchString (p ++ "varset-" ++ t) = true) ∧
    (∀ p t : String, (∀ c ∈ t.toList, asciiLetterOrDigit c) → t.length ≠ 16 →
      variableSetIdRegexp.MatchString (p ++ "varset-" ++ t) = false) ∧
    (∀ p t : String, t.length ≤ 16 → (∃ c ∈ t.toList, ¬ asciiLetterOrDigit c) →
      variableSetIdRegexp.MatchString (p ++ "varset-" ++ t) = false) ∧
    (∀ (q : String) (c : Char), ¬ asciiLetterOrDigit c →
      variableSetIdRegexp.MatchString (q ++ String.singleton c) = false) := by
  refine ⟨?_, ?_, ?_, ?_, ?_⟩
  · intro s
    rw [matchString_variableSetIdRegexp_iff]
    constructor
    · rintro ⟨pre, t, hs, hlen, hall⟩
      refine ⟨String.mk pre, String.mk t, ?_, hlen, hall⟩
      apply String.ext
      rw [← String.toList, hs]
      simp [String.data_append]
    · rintro ⟨p, t, hs, hlen, hall⟩
      exact ⟨p.toList, t.toList, by rw [hs, toList_varset], hlen, hall⟩
  · intro p t hlen hall
    rw [matchString_variableSetIdRegexp_iff]
    exact ⟨p.toList, t.toList, toList_varset p t, hlen, hall⟩
  · intro p t hall hlen
    rw [Bool.eq_false_iff]
    intro hmatch
    rw [matchString_variableSetIdRegexp_iff] at hmatch
    obtain ⟨pre2, t2, hs, hlen2, hall2⟩ := hmatch
    rw [toList_varset] at hs
    have := tail_after_varset_unique p.toList pre2 t.toList t2 hall hall2 hs
    apply hlen
    rw [← hlen2, ← this]
    rfl
  · intro p t hlen hbad
    refine no_match_of_bad_suffix _ t.toList ?_ hlen hbad
    exact ⟨p.toList ++ "varset-".toList, by rw [toList_varset, List.append_assoc]⟩
  · intro q c hbad
    refine no_match_of_bad_suffix _ [c] ⟨q.toList, ?_⟩ (by simp) ⟨c, by simp, hbad⟩
    simp [String.toList, String.data_append, String.singleton]

/-- Witness of C13 on concrete IDs: a bare ID and a path that ends in one match; 15 or 17
letters and digits, an underscore among the 16 characters, and a newline after the ID do
not. -/
theorem variableSetIdRegexp_spec_witness :
    variableSetIdRegexp.MatchString ("" ++ "varset-" ++ "abcdefgh12345678") = true ∧
    variableSetIdRegexp.MatchString ("acme/" ++ "varset-" ++ "ABCDEFGH12345678") = true ∧
    variableSetIdRegexp.MatchString ("" ++ "varset-" ++ "abcdefgh1234567") = false ∧
    variableSetIdRegexp.MatchString ("" ++ "varset-" ++ "abcdefgh123456789") = false ∧
    variableSetIdRegexp.MatchString ("" ++ "varset-" ++ "abcdefgh1234567_") = false ∧
    variableSetIdRegexp.MatchString
      ("varset-abcdefgh12345678" ++ String.singleton '\n') = false :=
  ⟨variableSetIdRegexp_spec.2.1 "" "abcdefgh12345678" (by decide) (by decide),
   variableSetIdRegexp_spec.2.1 "acme/" "ABCDEFGH12345678" (by decide) (by decide),
   variableSetIdRegexp_spec.2.2.1 "" "abcdefgh1234567" (by decide) (by decide),
   variableSetIdRegexp_spec.2.2.1 "" "abcdefgh123456789" (by decide) (by decide),
   variableSetIdRegexp_spec.2.2.2.1 "" "abcdefgh1234567_" (by decide) (by decide),
   variableSetIdRegexp_spec.2.2.2.2 "varset-abcdefgh12345678" '\n' (by decide)⟩

end Theorems

end Tfe
